import Mathlib

/-!
Verification of the Casino-style card-game rule engine.

The definitions below are a shallow embedding of the engine's source:
`src/modules/deck.js` (value model), `src/modules/captureLogic.js`
(capture-set generation), `src/modules/buildLogic.js` (build validation),
`src/modules/turns.js` (turn orchestrator: `handleBuild`, `handlePair`,
`handleCapture`) and `scoring.js` (`calculateScores`).

Conventions of the embedding:
* JS strings stay `String`; a JS "truthy id" test (`item && item.id`) becomes
  `item.id ≠ ""` (ids generated by the engine are nonempty strings).
* JS numbers in this code are nonnegative integers, embedded as `Nat`.
* The global mutable id counters (`generateBuildId`, `generatePairId`,
  `Date.now()`) are embedded by passing the freshly generated id as an
  explicit `freshId` argument.
* A JS object field that can be `undefined` (a multi-build item has a
  `builds` array but no `cards` array) becomes an `Option` field.
* `console.error` logging has no observable effect and is dropped.
-/

/-- A physical card: `{ suit, rank, suitRank }` from `deck.js`.
`suitRank` (suit concatenated with rank) is the stable identity key. -/
structure Card where
  suit : String
  rank : String
  suitRank : String
deriving DecidableEq

/-- `parseInt(rank)` for the numeral ranks, `0` where JS gets `NaN`. -/
def rankNum (r : String) : Nat :=
  match r with
  | "2" => 2 | "3" => 3 | "4" => 4 | "5" => 5 | "6" => 6
  | "7" => 7 | "8" => 8 | "9" => 9 | "10" => 10
  | _ => 0

/-- `combinationValue` from `deck.js`: Ace=1, numerals face value, J/Q/K=0. -/
def combinationValue (r : String) : Nat :=
  if r = "A" then 1
  else if r = "J" ∨ r = "Q" ∨ r = "K" then 0
  else rankNum r

/-- `getBuildValue` from `buildLogic.js`: Ace=1, J/Q/K=0, numerals face value. -/
def getBuildValue (c : Card) : Nat :=
  if c.rank = "A" then 1
  else if c.rank = "J" ∨ c.rank = "Q" ∨ c.rank = "K" then 0
  else rankNum c.rank

/-- `isFaceCard` from `buildLogic.js`. -/
def isFaceCard (c : Card) : Bool :=
  c.rank = "J" ∨ c.rank = "Q" ∨ c.rank = "K"

/-- One component group of a multi-build: `{ cards, value }`. -/
structure BuildComponent where
  cards : List Card
  value : Nat
deriving DecidableEq

/-- A table item: loose card, build, or pair.  A `build` carries an optional
`cards` list (single builds) and an optional `builds` list of component
groups (multi-builds); the source stores whichever of the two the creating
code path set, the other being `undefined`. -/
inductive TableItem where
  | card (id : String) (c : Card)
  | build (id : String) (value : Nat) (cards : Option (List Card))
      (builds : Option (List BuildComponent)) (controller : Nat) (isCompound : Bool)
  | pair (id : String) (rank : String) (cards : List Card) (controller : Nat)
deriving DecidableEq

/-- `item.id`. -/
def TableItem.id : TableItem → String
  | .card i _ => i
  | .build i _ _ _ _ _ => i
  | .pair i _ _ _ => i

/-- `item.type === 'card'`. -/
def isCardItem : TableItem → Bool
  | .card _ _ => true
  | _ => false

/-- `item.type === 'build'`. -/
def isBuildItem : TableItem → Bool
  | .build _ _ _ _ _ _ => true
  | _ => false

/-- `item.type === 'pair'`. -/
def isPairItem : TableItem → Bool
  | .pair _ _ _ _ => true
  | _ => false

/-- `item.controller` (only builds and pairs carry one; reading it off a
card is `undefined` in JS and never compared equal to a player, embedded
as the non-player value 0). -/
def itemController : TableItem → Nat
  | .card _ _ => 0
  | .build _ _ _ _ ctl _ => ctl
  | .pair _ _ _ ctl => ctl

/-- `item.value` of a build (`undefined`, i.e. 0, elsewhere). -/
def buildValueOf : TableItem → Nat
  | .build _ v _ _ _ _ => v
  | _ => 0

/-- `item.isCompound` of a build. -/
def itemIsCompound : TableItem → Bool
  | .build _ _ _ _ _ ic => ic
  | _ => false

/-- `item.cards` of a build (optional). -/
def buildCards : TableItem → Option (List Card)
  | .build _ _ cs _ _ _ => cs
  | _ => none

/-- `item.builds` of a multi-build (optional). -/
def itemBuilds : TableItem → Option (List BuildComponent)
  | .build _ _ _ bs _ _ => bs
  | _ => none

/-- The wrapped card of a card item. -/
def cardOfItem : TableItem → Option Card
  | .card _ c => some c
  | _ => none

/-- `getItemValue` from `buildLogic.js`: card → build value (Ace=1, J/Q/K=0),
build → its `value` (single or multi), pair → 0. -/
def getItemValue : TableItem → Nat
  | .card _ c => getBuildValue c
  | .build _ v _ _ _ _ => v
  | .pair _ _ _ _ => 0

/-- `getBuildValue` applied to a table item object: reads `.rank`, which a
card item has and other items do not (`parseInt(undefined)` is `NaN` → 0). -/
def itemBuildValue : TableItem → Nat
  | .card _ c => getBuildValue c
  | _ => 0

/-- `isFaceCard` applied to a table item object (reads `.rank`). -/
def itemIsFace : TableItem → Bool
  | .card _ c => isFaceCard c
  | _ => false

/-- The subset of `l` selected by the bits of `i` starting at bit `j`
(the `for (j...) if ((i >> j) & 1)` enumeration pattern of the source). -/
def bitsSubset (i : Nat) : List α → Nat → List α
  | [], _ => []
  | x :: xs, j => if Nat.testBit i j then x :: bitsSubset i xs (j + 1) else bitsSubset i xs (j + 1)

/-- Code-unit lexicographic comparison of character lists (the order
`Array.prototype.sort` uses on strings). -/
def charListLe : List Char → List Char → Bool
  | [], _ => true
  | _ :: _, [] => false
  | a :: as, b :: bs =>
    if a.toNat < b.toNat then true
    else if b.toNat < a.toNat then false
    else charListLe as bs

/-- Code-unit lexicographic comparison of strings. -/
def strLe (a b : String) : Bool :=
  charListLe a.data b.data

/-- Insertion into a lexicographically sorted list of strings. -/
def insertSorted (s : String) : List String → List String
  | [] => [s]
  | x :: xs => if strLe s x then s :: x :: xs else x :: insertSorted s xs

/-- Lexicographic sort of strings (`Array.prototype.sort`). -/
def sortStrings (l : List String) : List String :=
  l.foldr insertSorted []

/-- `set.map(item => item.id).sort().join(',')`: the signature used to
de-duplicate capture sets. -/
def setSignature (s : List TableItem) : String :=
  String.intercalate "," (sortStrings (s.map TableItem.id))

/-- First-occurrence de-duplication (JS `Set` insertion order). -/
def dedupAux [DecidableEq α] (seen : List α) : List α → List α
  | [] => []
  | x :: xs => if seen.contains x then dedupAux seen xs else x :: dedupAux (x :: seen) xs

/-- First-occurrence de-duplication of a list. -/
def dedupKeepFirst [DecidableEq α] (l : List α) : List α :=
  dedupAux [] l

/-- Step 3 of `getValidCaptures`: keep sets that are nonempty and whose items
all carry ids, de-duplicated by id signature, first occurrence kept. -/
def dedupSets (sets : List (List TableItem)) : List (List TableItem) :=
  (sets.foldl
    (fun acc s =>
      if s ≠ [] ∧ s.all (fun it => it.id ≠ "") then
        let sig := setSignature s
        if acc.2.contains sig then acc else (acc.1 ++ [s], acc.2 ++ [sig])
      else acc)
    (([], []) : List (List TableItem) × List String)).1

/-- Rank-match predicate of capture step 1: a loose card or a pair of the
played card's rank. -/
def rankMatch (playedRank : String) : TableItem → Bool
  | .card _ c => c.rank = playedRank
  | .pair _ r _ _ => r = playedRank
  | _ => false

/-- Combination-eligible items of capture step 2b: numeric loose cards and
all builds (pairs never join value combinations). -/
def combinable : TableItem → Bool
  | .card _ c => !(c.rank = "J" ∨ c.rank = "Q" ∨ c.rank = "K" : Bool)
  | .build _ _ _ _ _ _ => true
  | _ => false

/-- The value an item contributes to a combination sum: cards by
`combinationValue`, builds by their `value`. -/
def comboValue : TableItem → Nat
  | .card _ c => combinationValue c.rank
  | .build _ v _ _ _ _ => v
  | .pair _ _ _ _ => 0

/-- `CaptureValidator.getValidCaptures` from `captureLogic.js`: all capture
sets the played card could take — the combined rank-match set, each
value-matching build as a singleton, and every subset of combinable items
summing to the played card's combination value (single builds excluded there,
they are already covered), de-duplicated by id signature. -/
def getValidCaptures (playedCard : Card) (tableItems : List TableItem) : List (List TableItem) :=
  let playedRank := playedCard.rank
  let playedCombinationValue := combinationValue playedRank
  let isPlayedCardNumeric := ¬(playedRank = "J" ∨ playedRank = "Q" ∨ playedRank = "K")
  let validTableItems := tableItems.filter (fun it => it.id ≠ "")
  let rankMatchItems := validTableItems.filter (rankMatch playedRank)
  let rankSets := if rankMatchItems ≠ [] then [rankMatchItems] else []
  let buildSets :=
    if isPlayedCardNumeric then
      (validTableItems.filter
        (fun it => match it with
          | .build _ v _ _ _ _ => v = playedCombinationValue
          | _ => false)).map (fun b => [b])
    else []
  let comboSets :=
    if isPlayedCardNumeric then
      let combinableItems := validTableItems.filter combinable
      let n := combinableItems.length
      ((List.range (2 ^ n)).drop 1).filterMap (fun i =>
        let subset := bitsSubset i combinableItems 0
        let currentSum := (subset.map comboValue).sum
        if currentSum = playedCombinationValue ∧
            (subset.length > 1 ∨ (subset.length = 1 ∧ subset.all isCardItem)) then
          some subset
        else none)
    else []
  dedupSets (rankSets ++ buildSets ++ comboSets)

/-- The result record of `validateBuild`.  Fields the source leaves
`undefined` on a given return path take the listed defaults. -/
structure BuildValidation where
  isValid : Bool
  message : String
  buildValue : Nat := 0
  isModification : Bool := false
  targetBuild : Option TableItem := none
  summingItems : List TableItem := []
  cascadingItems : List TableItem := []
  isMultiBuildCreation : Bool := false
  multiBuildBuilds : List BuildComponent := []
  isMultiBuildIncrease : Bool := false
deriving DecidableEq

/-- A failing `validateBuild` result. -/
@[reducible] def invalidBuild (msg : String) : BuildValidation :=
  { isValid := false, message := msg }

/-- The inner subset scan of `findBuildPartitions`: the first (by bitmask
order, from 1) nonempty subset of `remaining` whose build values sum to
`targetValue`. -/
def firstMatchingSubset (targetValue : Nat) (remaining : List Card) : Option (List Card) :=
  ((List.range (2 ^ remaining.length)).drop 1).findSome? (fun i =>
    let subset := bitsSubset i remaining 0
    if (subset.map getBuildValue).sum = targetValue ∧ subset.length > 0 then some subset
    else none)

/-- The `while (remainingCards.length > 0)` loop of `findBuildPartitions`:
repeatedly split off a subset summing to `targetValue` and drop its cards
(matched by `suitRank`).  Each found subset is nonempty and drawn from
`remaining`, so the loop strictly shrinks the list; it is embedded with the
initial length as explicit fuel, which therefore never runs out. -/
def partitionLoop (targetValue : Nat) : Nat → List Card → List BuildComponent → Option (List BuildComponent)
  | 0, remaining, acc => if remaining = [] then some acc else none
  | fuel + 1, remaining, acc =>
    if remaining = [] then some acc
    else
      match firstMatchingSubset targetValue remaining with
      | none => none
      | some subset =>
        partitionLoop targetValue fuel
          (remaining.filter (fun c => !(subset.any (fun sc => sc.suitRank = c.suitRank))))
          (acc ++ [⟨subset, targetValue⟩])

/-- `findBuildPartitions` from `buildLogic.js`: try to partition the played
card plus the selected cards into at least two groups each summing to
`targetValue`, with the played card used. -/
def findBuildPartitions (playedCard : Card) (cards : List Card) (targetValue : Nat) :
    Option (List BuildComponent) :=
  let allCardsToPartition := playedCard :: cards
  match partitionLoop targetValue allCardsToPartition.length allCardsToPartition [] with
  | none => none
  | some builds =>
    if builds.length ≥ 2 ∧
        builds.any (fun b => b.cards.any (fun c => c.suitRank = playedCard.suitRank)) then
      some builds
    else none

/-- Case 1 of `validateBuild`: increasing an existing multi-build
(`selectedBuilds.length === 1 && selectedBuilds[0].isCompound`). -/
def vbCase1 (playedCard : Card) (selectedItems : List TableItem) (playerHand : List Card)
    (tableItems : List TableItem) (currentPlayer : Nat) (selectedCards : List TableItem)
    (targetMultiBuild : TableItem) : BuildValidation :=
  if selectedItems.length ≠ selectedCards.length + 1 then
    invalidBuild "Cannot select other builds when increasing a Multi-Build."
  else if selectedCards.any itemIsFace then
    invalidBuild "Face cards cannot be used in builds."
  else
    let summingValue := getBuildValue playedCard + (selectedCards.map itemBuildValue).sum
    if summingValue ≠ buildValueOf targetMultiBuild then
      invalidBuild ("New Build must sum to Multi-Build value " ++
        toString (buildValueOf targetMultiBuild) ++ ".")
    else if ¬ playerHand.any (fun handCard =>
        handCard.suitRank ≠ playedCard.suitRank ∧
        getBuildValue handCard = buildValueOf targetMultiBuild) then
      invalidBuild ("Need a " ++ toString (buildValueOf targetMultiBuild) ++
        " in hand to increase Multi-Build.")
    else if tableItems.any (fun it =>
        isBuildItem it ∧ buildValueOf it = buildValueOf targetMultiBuild ∧
        itemController it = currentPlayer ∧ it.id ≠ targetMultiBuild.id) then
      invalidBuild ("You already control a Build of " ++
        toString (buildValueOf targetMultiBuild) ++ ".")
    else
      { isValid := true
        buildValue := buildValueOf targetMultiBuild
        isModification := true
        targetBuild := some targetMultiBuild
        summingItems := selectedCards
        cascadingItems := []
        isMultiBuildIncrease := true
        message := "Increased Multi-Build of " ++ toString (buildValueOf targetMultiBuild) ++ "." }

/-- Case 2 of `validateBuild`: combining several selected single builds into
a new multi-build (`selectedBuilds.length > 1`). -/
def vbCase2 (playedCard : Card) (playerHand : List Card) (tableItems : List TableItem)
    (currentPlayer : Nat) (selectedBuilds : List TableItem) (selectedCards : List TableItem) :
    BuildValidation :=
  if selectedCards.length > 0 then
    invalidBuild "Cannot select cards when combining existing builds into a Multi-Build."
  else if selectedBuilds.any itemIsCompound then
    invalidBuild "Cannot select compound builds for new Multi-Build."
  else
    let buildValues := selectedBuilds.map buildValueOf
    if (dedupKeepFirst buildValues).length > 1 then
      invalidBuild "Selected Builds must have the same value for Multi-Build."
    else
      let targetValue := buildValues.headD 0
      if getBuildValue playedCard ≠ targetValue then
        invalidBuild ("Played card (" ++ playedCard.rank ++
          ") must match the target build value (" ++ toString targetValue ++ ").")
      else
        let multiBuildBuilds :=
          selectedBuilds.map (fun b => BuildComponent.mk ((buildCards b).getD []) (buildValueOf b))
            ++ [⟨[playedCard], targetValue⟩]
        if ¬ playerHand.any (fun handCard =>
            handCard.suitRank ≠ playedCard.suitRank ∧ getBuildValue handCard = targetValue) then
          invalidBuild ("Need a " ++ toString targetValue ++ " in hand for Multi-Build.")
        else if tableItems.any (fun it =>
            isBuildItem it ∧ buildValueOf it = targetValue ∧ itemController it = currentPlayer ∧
            ¬ selectedBuilds.any (fun b => b.id = it.id)) then
          invalidBuild ("You already control a Build of " ++ toString targetValue ++ ".")
        else
          { isValid := true
            buildValue := targetValue
            isMultiBuildCreation := true
            multiBuildBuilds := multiBuildBuilds
            summingItems := []
            cascadingItems := []
            message := "Created Multi-Build of " ++ toString targetValue ++ "." }

/-- Case 3 of `validateBuild`: creating a multi-build by partitioning the
played card and the selected loose cards (`selectedBuilds.length === 0`);
target values 1..10 are tried in order, skipping values without a holding
card or with a duplicate controlled build. -/
def vbCase3 (playedCard : Card) (selectedCards : List TableItem) (playerHand : List Card)
    (tableItems : List TableItem) (currentPlayer : Nat) : Option BuildValidation :=
  (List.range' 1 10).findSome? (fun targetValue =>
    match findBuildPartitions playedCard (selectedCards.filterMap cardOfItem) targetValue with
    | none => none
    | some builds =>
      if ¬ playerHand.any (fun handCard =>
          handCard.suitRank ≠ playedCard.suitRank ∧ getBuildValue handCard = targetValue) then
        none
      else if tableItems.any (fun it =>
          isBuildItem it ∧ buildValueOf it = targetValue ∧ itemController it = currentPlayer) then
        none
      else
        some { isValid := true
               buildValue := targetValue
               isMultiBuildCreation := true
               multiBuildBuilds := builds
               summingItems := selectedCards
               cascadingItems := []
               message := "Created Multi-Build of " ++ toString targetValue ++ "." })

/-- The summing-subset scan of Case 4 of `validateBuild` (the
`for (let i = 0; i < (1 << n); i++)` loop): the first subset of the selected
cards that yields a build value in 1..10, with the remaining items matching
it, a holding card in hand and no duplicate controlled build. -/
def vbCase4Scan (playedCard : Card) (otherSelectedItems : List TableItem)
    (playerHand : List Card) (tableItems : List TableItem) (currentPlayer : Nat)
    (targetBuild : Option TableItem) : Option BuildValidation :=
  (List.range (2 ^ otherSelectedItems.length)).findSome? (fun i =>
    let currentSummingGroup := bitsSubset i otherSelectedItems 0
    let summingIds := currentSummingGroup.map TableItem.id
    let currentBuildValue := getBuildValue playedCard +
      (currentSummingGroup.map getItemValue).sum + (targetBuild.elim 0 getItemValue)
    if currentBuildValue = 0 ∨ currentBuildValue > 10 then none
    else
      let currentRemainingItems :=
        otherSelectedItems.filter (fun it => !(summingIds.contains it.id))
      if currentRemainingItems.any (fun it => getItemValue it ≠ currentBuildValue) then none
      else if ¬ playerHand.any (fun handCard =>
          handCard.suitRank ≠ playedCard.suitRank ∧
          getBuildValue handCard = currentBuildValue) then none
      else if tableItems.any (fun it =>
          isBuildItem it ∧ buildValueOf it = currentBuildValue ∧
          itemController it = currentPlayer ∧
          (targetBuild.elim true (fun tb => decide (it.id ≠ tb.id))) = true) then none
      else
        some { isValid := true
               buildValue := currentBuildValue
               isModification := targetBuild.isSome
               targetBuild := targetBuild
               summingItems := currentSummingGroup
               cascadingItems := currentRemainingItems
               message := "Build " ++ toString currentBuildValue ++ " is valid." })

/-- Case 4 of `validateBuild`: creating a single build, or modifying the
single simple build `targetBuild`; scans every subset of the selected cards
as the summing group, the rest having to match the resulting value. -/
def vbCase4 (playedCard : Card) (otherSelectedItems : List TableItem) (playerHand : List Card)
    (tableItems : List TableItem) (currentPlayer : Nat) (targetBuild : Option TableItem) :
    BuildValidation :=
  if otherSelectedItems.any itemIsFace then
    invalidBuild "Face cards cannot be used in builds."
  else
    match vbCase4Scan playedCard otherSelectedItems playerHand tableItems currentPlayer
        targetBuild with
    | some r => r
    | none =>
      let fullSumValue := (otherSelectedItems.map getItemValue).sum
      let potentialFullTarget := getBuildValue playedCard + fullSumValue +
        (targetBuild.elim 0 getItemValue)
      let needsHoldingCardCheck := playerHand.any (fun handCard =>
        handCard.suitRank ≠ playedCard.suitRank ∧ getBuildValue handCard = potentialFullTarget)
      if potentialFullTarget > 0 ∧ potentialFullTarget ≤ 10 ∧ ¬ needsHoldingCardCheck then
        invalidBuild ("Invalid combination. You might need a " ++
          toString potentialFullTarget ++ " in hand.")
      else invalidBuild "Invalid build combination selected."

/-- `validateBuild` from `buildLogic.js`: initial checks, then dispatch to
the four cases on the number and kind of selected builds. -/
def validateBuild (playedCard : Card) (selectedItems : List TableItem) (playerHand : List Card)
    (tableItems : List TableItem) (currentPlayer : Nat) : BuildValidation :=
  if selectedItems = [] then
    invalidBuild "Select a card from hand and items from table."
  else if ¬ selectedItems.all (fun it => it.id ≠ "") then
    invalidBuild "Internal error: Invalid items selected."
  else if isFaceCard playedCard then
    invalidBuild "Face cards cannot be used in builds."
  else if selectedItems.any isPairItem then
    invalidBuild "Cannot select pairs for building."
  else
    let selectedBuilds := selectedItems.filter isBuildItem
    let selectedCards := selectedItems.filter isCardItem
    match selectedBuilds with
    | [b] =>
      if itemIsCompound b then
        vbCase1 playedCard selectedItems playerHand tableItems currentPlayer selectedCards b
      else vbCase4 playedCard selectedCards playerHand tableItems currentPlayer (some b)
    | _ :: _ :: _ =>
      vbCase2 playedCard playerHand tableItems currentPlayer selectedBuilds selectedCards
    | [] =>
      if selectedCards.length > 0 then
        match vbCase3 playedCard selectedCards playerHand tableItems currentPlayer with
        | some r => r
        | none => vbCase4 playedCard selectedCards playerHand tableItems currentPlayer none
      else vbCase4 playedCard selectedCards playerHand tableItems currentPlayer none

/-- Result record of `handleBuild` / `handlePair`. -/
structure ActionResult where
  success : Bool
  newTableItems : List TableItem
  message : String
deriving DecidableEq

/-- Result record of `handleCapture`. -/
structure CaptureResult where
  success : Bool
  newP1Score : Nat
  newP2Score : Nat
  newTableItems : List TableItem
  newLastCapturer : Option Nat
  message : String
  capturedCards : List Card
deriving DecidableEq

/-- First-occurrence de-duplication of cards by `suitRank`, dropping cards
with an empty `suitRank` (the `card && card.suitRank && !seen.has(...)`
pattern used by `handleBuild` and `handleCapture`). -/
def dedupBySuitRank (cards : List Card) : List Card :=
  (cards.foldl
    (fun acc c =>
      if c.suitRank ≠ "" ∧ ¬ acc.2.contains c.suitRank then
        (acc.1 ++ [c], acc.2 ++ [c.suitRank])
      else acc)
    (([], []) : List Card × List String)).1

/-- The physical cards an item contributes when folded into a build or a
capture pile: a loose card itself, a build's or pair's `cards` array
(nothing when a multi-build has no `cards` array). -/
def itemContributedCards : TableItem → List Card
  | .card _ c => [c]
  | .build _ _ cs _ _ _ => cs.getD []
  | .pair _ _ cs _ => cs

/-- `handleBuild` from `turns.js`: validate, then create a multi-build,
increase a multi-build, or create/modify a single build.  `freshId` stands
for the id the source draws from its global generator. -/
def handleBuild (playedCard : Card) (selectedItems : List TableItem) (currentPlayer : Nat)
    (tableItems : List TableItem) (playerHand : List Card) (freshId : String) : ActionResult :=
  let validation := validateBuild playedCard selectedItems playerHand tableItems currentPlayer
  if validation.isValid = false then
    { success := false, newTableItems := tableItems, message := validation.message }
  else if validation.isMultiBuildCreation then
    let newBuildObject : TableItem :=
      .build freshId validation.buildValue none (some validation.multiBuildBuilds)
        currentPlayer true
    let selectedIds := (selectedItems.filter (fun it => it.id ≠ "")).map TableItem.id
    let newTableItems :=
      (tableItems.filter (fun it => it.id ≠ "" ∧ ¬ selectedIds.contains it.id)) ++ [newBuildObject]
    { success := true, newTableItems := newTableItems,
      message := "Player " ++ toString currentPlayer ++ " created Multi-Build of " ++
        toString validation.buildValue ++ "." }
  else if validation.isMultiBuildIncrease then
    match validation.targetBuild with
    | some targetBuild =>
      let newComponent : BuildComponent :=
        ⟨playedCard :: validation.summingItems.filterMap cardOfItem, validation.buildValue⟩
      let withUpdated := tableItems.map (fun it =>
        if it.id = targetBuild.id then
          match it with
          | .build i v cs _ _ _ =>
            TableItem.build i v cs (some ((itemBuilds targetBuild).getD [] ++ [newComponent]))
              currentPlayer true
          | other => other
        else it)
      let summingIds :=
        (validation.summingItems.filter (fun it => it.id ≠ "")).map TableItem.id
      let newTableItems := withUpdated.filter (fun it => it.id ≠ "" ∧ ¬ summingIds.contains it.id)
      { success := true, newTableItems := newTableItems,
        message := "Player " ++ toString currentPlayer ++ " increased Multi-Build of " ++
          toString validation.buildValue ++ "." }
    | none =>
      -- Unreachable: a multi-build increase always carries its target build.
      { success := false, newTableItems := tableItems, message := "Internal error." }
  else
    let finalBuildCards :=
      playedCard :: (validation.summingItems.flatMap itemContributedCards ++
        validation.cascadingItems.flatMap itemContributedCards ++
        (if validation.isModification then
          validation.targetBuild.elim [] (fun tb => (buildCards tb).getD [])
        else []))
    let uniqueBuildCards := dedupBySuitRank finalBuildCards
    let buildId :=
      if validation.isModification then validation.targetBuild.elim freshId TableItem.id
      else freshId
    let newBuildObject : TableItem :=
      .build buildId validation.buildValue (some uniqueBuildCards) none currentPlayer false
    let itemsToRemoveIds :=
      (selectedItems.filter (fun it => it.id ≠ "")).map TableItem.id ++
        (if validation.isModification then
          validation.targetBuild.elim [] (fun tb => if tb.id ≠ "" then [tb.id] else [])
        else [])
    let newTableItems :=
      (tableItems.filter (fun it => it.id ≠ "" ∧ ¬ itemsToRemoveIds.contains it.id)) ++
        [newBuildObject]
    { success := true, newTableItems := newTableItems,
      message := "Player " ++ toString currentPlayer ++
        (if validation.isModification then " modified " else " built ") ++
        toString validation.buildValue ++ "." }

/-- Result record of `validatePair`. -/
structure PairValidation where
  isValid : Bool
  message : String
  rank : String := ""
deriving DecidableEq

/-- Modelled from the spec: `validatePair` — the file `src/modules/pairLogic.js`
is not among the sources, only its callers are.  Spec §4.3: every selected
item must be a card of the played card's rank, or the selection is a single
existing `Pair` of that rank; face-card pairs are permitted; there is no
holding-card requirement.  Returns the matched rank or a failure message. -/
def validatePair (playedCard : Card) (selectedItems : List TableItem)
    (_playerHand : List Card) : PairValidation :=
  if selectedItems = [] then
    { isValid := false, message := "No items selected for pairing." }
  else if selectedItems.all (fun it =>
      match it with
      | .card _ c => c.rank = playedCard.rank
      | _ => false) then
    { isValid := true, message := "Pair is valid.", rank := playedCard.rank }
  else
    match selectedItems with
    | [.pair _ r _ _] =>
      if r = playedCard.rank then
        { isValid := true, message := "Pair is valid.", rank := playedCard.rank }
      else { isValid := false, message := "Selection rank mismatch." }
    | _ => { isValid := false, message := "Cannot pair with non-card or non-pair item." }

/-- The new-pair branch of `handlePair`: all selected items must be cards;
they are replaced by one new pair containing them and the played card. -/
def handlePairCreate (playedCard : Card) (selectedItems : List TableItem) (currentPlayer : Nat)
    (tableItems : List TableItem) (rank : String) (freshId : String) : ActionResult :=
  if selectedItems.any (fun it => ¬ isCardItem it) then
    { success := false, newTableItems := tableItems, message := "Can only pair with cards." }
  else
    let itemsToRemoveIds := selectedItems.map TableItem.id
    let newPairObject : TableItem :=
      .pair freshId rank (playedCard :: selectedItems.filterMap cardOfItem) currentPlayer
    let updatedTableItems :=
      (tableItems.filter (fun it => it.id ≠ "" ∧ ¬ itemsToRemoveIds.contains it.id)) ++
        [newPairObject]
    { success := true, newTableItems := updatedTableItems,
      message := "Player " ++ toString currentPlayer ++ " paired " ++ rank ++ "s." }

/-- `handlePair` from `turns.js`: validate, then extend the selected pair or
create a new pair from the selected cards.  In the branch where a selected
item has no id the source returns an object carrying neither `success` nor
`newTableItems` (both `undefined`); that is embedded as a failure with an
empty table. -/
def handlePair (playedCard : Card) (selectedItems : List TableItem) (currentPlayer : Nat)
    (tableItems : List TableItem) (playerHand : List Card) (freshId : String) : ActionResult :=
  if ¬ selectedItems.all (fun it => it.id ≠ "") then
    { success := false, newTableItems := [],
      message := "Internal error: Invalid items selected for pair." }
  else
    let validation := validatePair playedCard selectedItems playerHand
    if validation.isValid = false then
      { success := false, newTableItems := tableItems, message := validation.message }
    else
      let rank := validation.rank
      match selectedItems with
      | [.pair pid pr pcs _] =>
        if pr = rank then
          let newPairObject : TableItem := .pair pid pr (pcs ++ [playedCard]) currentPlayer
          { success := true,
            newTableItems := tableItems.map (fun it => if it.id = pid then newPairObject else it),
            message := "Player " ++ toString currentPlayer ++ " paired " ++ rank ++ "s." }
        else handlePairCreate playedCard selectedItems currentPlayer tableItems rank freshId
      | _ => handlePairCreate playedCard selectedItems currentPlayer tableItems rank freshId

/-- `isValidMultiCaptureSelection` from `turns.js`: an empty selection is
valid; otherwise every generated capture set fully contained in the selection
marks its items covered, and the selection is valid iff the covered ids are
exactly the selected ids. -/
def isValidMultiCaptureSelection (playedCard : Card) (selectedItems : List TableItem)
    (tableItems : List TableItem) : Bool :=
  if selectedItems.isEmpty then true
  else if ¬ selectedItems.all (fun it => it.id ≠ "") then false
  else
    let selectedItemIds := selectedItems.map TableItem.id
    let allValidOptions := getValidCaptures playedCard tableItems
    let coveredItemIds := allValidOptions.foldl
      (fun acc option =>
        if option.all (fun it => it.id ≠ "") ∧
            (option.map TableItem.id).all (fun i => selectedItemIds.contains i) then
          acc ++ option.map TableItem.id
        else acc)
      ([] : List String)
    decide ((dedupKeepFirst coveredItemIds).length = (dedupKeepFirst selectedItemIds).length ∧
      selectedItemIds.all (fun i => coveredItemIds.contains i))

/-- `handleCapture` from `turns.js`: validate the multi-capture selection,
reject builds and pairs the acting player does not control, then remove the
selected items, collect their cards, and award a sweep point when a
previously nonempty table is emptied. -/
def handleCapture (playedCard : Card) (selectedItems : List TableItem) (currentPlayer : Nat)
    (player1Score player2Score : Nat) (tableItems : List TableItem)
    (lastCapturer : Option Nat) : CaptureResult :=
  if ¬ selectedItems.all (fun it => it.id ≠ "") then
    { success := false, newP1Score := player1Score, newP2Score := player2Score,
      newTableItems := tableItems, newLastCapturer := lastCapturer,
      message := "Internal error: Invalid items selected.", capturedCards := [] }
  else if isValidMultiCaptureSelection playedCard selectedItems tableItems = false then
    { success := false, newP1Score := player1Score, newP2Score := player2Score,
      newTableItems := tableItems, newLastCapturer := lastCapturer,
      message := "Invalid capture selection.", capturedCards := [] }
  else if selectedItems.any (fun it =>
      (isBuildItem it ∨ isPairItem it) ∧ itemController it ≠ currentPlayer) then
    { success := false, newP1Score := player1Score, newP2Score := player2Score,
      newTableItems := tableItems, newLastCapturer := lastCapturer,
      message := "Cannot capture Builds or Pairs you don’t control.", capturedCards := [] }
  else
    let capturedCards := playedCard :: selectedItems.flatMap itemContributedCards
    let uniqueCapturedCards := dedupBySuitRank capturedCards
    let selectedItemIds := selectedItems.map TableItem.id
    let validTableItems := tableItems.filter (fun it => it.id ≠ "")
    let newTableItems := validTableItems.filter (fun it => ¬ selectedItemIds.contains it.id)
    let sweep := newTableItems = [] ∧ validTableItems ≠ []
    { success := true
      newP1Score := player1Score + (if currentPlayer = 1 ∧ sweep then 1 else 0)
      newP2Score := player2Score + (if currentPlayer ≠ 1 ∧ sweep then 1 else 0)
      newTableItems := newTableItems
      newLastCapturer := some currentPlayer
      message := "Player " ++ toString currentPlayer ++ " captured " ++
        toString selectedItems.length ++ " item(s)." ++ (if sweep then " Sweep!" else "")
      capturedCards := uniqueCapturedCards }

/-- The per-card point step of `calculateScores`: +1 per Ace, +2 for the ten
of diamonds, +1 for the two of spades. -/
def scoreStep (s : Nat) (c : Card) : Nat :=
  let s1 := if c.rank = "A" then s + 1 else s
  let s2 := if c.suitRank = "D10" then s1 + 2 else s1
  if c.suitRank = "S2" then s2 + 1 else s2

/-- `calculateScores` from `scoring.js`: +3 for holding more than 26 cards
(none when the other pile also exceeds 26), +1 for strictly more spades,
then the per-card points, all added onto the running scores. -/
def calculateScores (player1Pile player2Pile : List Card)
    (player1Score player2Score : Nat) : Nat × Nat :=
  let p1a := if player1Pile.length > 26 ∧ player2Pile.length ≤ 26 then player1Score + 3
    else player1Score
  let p2a := if player2Pile.length > 26 ∧ player1Pile.length ≤ 26 then player2Score + 3
    else player2Score
  let p1Spades := (player1Pile.filter (fun c => c.suit = "S")).length
  let p2Spades := (player2Pile.filter (fun c => c.suit = "S")).length
  let p1b := if p1Spades > p2Spades then p1a + 1 else p1a
  let p2b := if p2Spades > p1Spades then p2a + 1 else p2a
  (player1Pile.foldl scoreStep p1b, player2Pile.foldl scoreStep p2b)

/-- Specification-side per-card points of a capture pile. -/
def cardPoints (c : Card) : Nat :=
  (if c.rank = "A" then 1 else 0) + (if c.suitRank = "D10" then 2 else 0) +
    (if c.suitRank = "S2" then 1 else 0)

/-- Specification-side total card points of a pile. -/
def pilePoints (pile : List Card) : Nat :=
  (pile.map cardPoints).sum

/-- Number of spades in a pile. -/
def spadesCount (pile : List Card) : Nat :=
  (pile.filter (fun c => c.suit = "S")).length

/-! Concrete fixtures used by the witnesses and counterexamples. -/

/-- Six of diamonds. -/
def cD6 : Card := ⟨"D", "6", "D6"⟩

/-- Six of clubs. -/
def cC6 : Card := ⟨"C", "6", "C6"⟩

/-- Six of hearts. -/
def cH6 : Card := ⟨"H", "6", "H6"⟩

/-- Six of spades. -/
def cS6 : Card := ⟨"S", "6", "S6"⟩

/-- Two of hearts. -/
def cH2 : Card := ⟨"H", "2", "H2"⟩

/-- Four of hearts. -/
def cH4 : Card := ⟨"H", "4", "H4"⟩

/-- Ace of hearts. -/
def cHA : Card := ⟨"H", "A", "HA"⟩

/-- Two of clubs. -/
def cC2 : Card := ⟨"C", "2", "C2"⟩

/-- Three of clubs. -/
def cC3 : Card := ⟨"C", "3", "C3"⟩

/-- Five of clubs. -/
def cC5 : Card := ⟨"C", "5", "C5"⟩

/-- Five of hearts. -/
def cH5 : Card := ⟨"H", "5", "H5"⟩

/-- Ace of clubs. -/
def cCA : Card := ⟨"C", "A", "CA"⟩

/-- Ten of diamonds (Big Casino). -/
def cD10 : Card := ⟨"D", "10", "D10"⟩

/-- Two of spades (Little Casino). -/
def cS2 : Card := ⟨"S", "2", "S2"⟩

/-- Jack of hearts. -/
def cHJ : Card := ⟨"H", "J", "HJ"⟩

/-- A simple build of 6 controlled by player 2. -/
def b6opp : TableItem := .build "b6" 6 (some [cH2, cH4]) none 2 false

/-- The same simple build of 6, controlled by player 1. -/
def b6own : TableItem := .build "b6" 6 (some [cH2, cH4]) none 1 false

/-- A loose six of clubs on the table. -/
def itC6 : TableItem := .card "c6" cC6

/-- A simple build of 6 controlled by player 2 (fixture for Multi-Build). -/
def bA : TableItem := .build "bA" 6 (some [cH2, cH4]) none 2 false

/-- A simple build of 6 controlled by player 1 (fixture for Multi-Build). -/
def bB : TableItem := .build "bB" 6 (some [cCA, cC5]) none 1 false

/-- A simple build of 5 controlled by player 2. -/
def b0 : TableItem := .build "b0" 5 (some [cC2, cC3]) none 2 false

/-- A loose six of diamonds on the table. -/
def itD6x : TableItem := .card "cD6x" cD6

/-- A loose two of hearts on the table. -/
def itH2 : TableItem := .card "h2" cH2

/-- A loose four of hearts on the table. -/
def itH4 : TableItem := .card "h4" cH4

/-- A loose three of clubs on the table. -/
def itC3 : TableItem := .card "c3" cC3

/-- A compound multi-build of 6 controlled by player 1. -/
def mb6 : TableItem := .build "mb6" 6 none (some [⟨[cH2, cH4], 6⟩]) 1 true

/-! Helper lemmas. -/

/-- A string with a nonempty left part is nonempty. -/
theorem append_ne_empty_left (s t : String) (hs : s ≠ "") : s ++ t ≠ "" := by
  intro h
  rw [String.ext_iff, String.data_append] at h
  rcases List.append_eq_nil.mp h with ⟨h1, _⟩
  exact hs (String.ext_iff.mpr h1)

/-- One scoring step adds exactly the card's points. -/
theorem scoreStep_eq (s : Nat) (c : Card) : scoreStep s c = s + cardPoints c := by
  simp only [scoreStep, cardPoints]
  split_ifs <;> omega

/-- Folding the scoring step over a pile adds the pile's points. -/
theorem foldl_scoreStep (pile : List Card) : ∀ s : Nat, pile.foldl scoreStep s = s + pilePoints pile := by
  induction pile with
  | nil => intro s; simp [pilePoints]
  | cons c cs ih =>
    intro s
    simp only [List.foldl_cons, pilePoints, List.map_cons, List.sum_cons] at *
    rw [scoreStep_eq, ih]
    omega

/-- C9: `calculateScores` awards +3 to the pile holding strictly more than 26
cards (none on a tie), +1 for strictly more spades (none on a tie), +1 per
Ace, +2 for the ten of diamonds and +1 for the two of spades, summed onto the
running scores; and, being a pure function, two calls on identical inputs
agree. -/
theorem c9_calculate_scores (p1Pile p2Pile : List Card) (s1 s2 : Nat)
    (htotal : p1Pile.length + p2Pile.length ≤ 52) :
    calculateScores p1Pile p2Pile s1 s2 =
      (s1 + (if p1Pile.length > 26 then 3 else 0) +
         (if spadesCount p1Pile > spadesCount p2Pile then 1 else 0) + pilePoints p1Pile,
       s2 + (if p2Pile.length > 26 then 3 else 0) +
         (if spadesCount p2Pile > spadesCount p1Pile then 1 else 0) + pilePoints p2Pile) ∧
    calculateScores p1Pile p2Pile s1 s2 = calculateScores p1Pile p2Pile s1 s2 := by
  refine ⟨?_, rfl⟩
  simp only [calculateScores, spadesCount]
  rw [foldl_scoreStep, foldl_scoreStep]
  simp only [Prod.mk.injEq]
  constructor <;> (split_ifs <;> omega)

/-- Witness for C9 at concrete piles. -/
theorem c9_calculate_scores_witness :
    calculateScores [cCA, cD10, cS2] [cS6] 5 7 = (9, 7) :=
  ((c9_calculate_scores [cCA, cD10, cS2] [cS6] 5 7 (by decide)).1).trans (by decide)

/-- C10: an empty capture selection is accepted: the multi-capture validation
returns true, and `handleCapture` succeeds leaving the table and both scores
unchanged, capturing only the played card. -/
theorem c10_empty_selection (playedCard : Card) (tableItems : List TableItem)
    (currentPlayer p1 p2 : Nat) (lastCapturer : Option Nat)
    (hids : ∀ it ∈ tableItems, TableItem.id it ≠ "") (hpc : playedCard.suitRank ≠ "") :
    isValidMultiCaptureSelection playedCard [] tableItems = true ∧
    (handleCapture playedCard [] currentPlayer p1 p2 tableItems lastCapturer).success = true ∧
    (handleCapture playedCard [] currentPlayer p1 p2 tableItems lastCapturer).newTableItems =
      tableItems ∧
    (handleCapture playedCard [] currentPlayer p1 p2 tableItems lastCapturer).newP1Score = p1 ∧
    (handleCapture playedCard [] currentPlayer p1 p2 tableItems lastCapturer).newP2Score = p2 ∧
    (handleCapture playedCard [] currentPlayer p1 p2 tableItems lastCapturer).capturedCards =
      [playedCard] := by
  have hvalid : isValidMultiCaptureSelection playedCard [] tableItems = true := by
    simp [isValidMultiCaptureSelection]
  have hfilter : tableItems.filter (fun it => decide (TableItem.id it ≠ "")) = tableItems :=
    List.filter_eq_self.mpr (fun a ha => decide_eq_true (hids a ha))
  have hded : dedupBySuitRank [playedCard] = [playedCard] := by
    simp [dedupBySuitRank, hpc]
  refine ⟨hvalid, ?_, ?_, ?_, ?_, ?_⟩ <;>
    simp_all [handleCapture, hvalid, hfilter, hded]

/-- Witness for C10: empty selection against a one-card table. -/
theorem c10_empty_selection_witness :
    isValidMultiCaptureSelection cD6 [] [itH2] = true ∧
    (handleCapture cD6 [] 1 3 4 [itH2] none).success = true ∧
    (handleCapture cD6 [] 1 3 4 [itH2] none).newTableItems = [itH2] ∧
    (handleCapture cD6 [] 1 3 4 [itH2] none).newP1Score = 3 ∧
    (handleCapture cD6 [] 1 3 4 [itH2] none).newP2Score = 4 ∧
    (handleCapture cD6 [] 1 3 4 [itH2] none).capturedCards = [cD6] :=
  c10_empty_selection cD6 [itH2] 1 3 4 none (by decide) (by decide)

/-- C3 (amended): a successful `handleCapture` performs a single capture: the
returned table is the input table (its items carrying ids) minus exactly the
selected items; no cascading re-check against the reduced table takes place. -/
theorem c3_single_capture_no_cascade (playedCard : Card) (selectedItems : List TableItem)
    (currentPlayer p1 p2 : Nat) (tableItems : List TableItem) (lastCapturer : Option Nat)
    (hs : (handleCapture playedCard selectedItems currentPlayer p1 p2 tableItems
      lastCapturer).success = true) :
    (handleCapture playedCard selectedItems currentPlayer p1 p2 tableItems
        lastCapturer).newTableItems =
      (tableItems.filter (fun it => it.id ≠ "")).filter
        (fun it => ¬ (selectedItems.map TableItem.id).contains it.id) := by
  unfold handleCapture at hs ⊢
  split_ifs at hs ⊢
  exact rfl

/-- Counterexample for C3: a successful capture that leaves an immediately
available capture set (the 2♥+4♥ combination for the played 6♦) on the table,
unconsumed — `handleCapture` does not cascade. -/
theorem c3_counterexample :
    (handleCapture cD6 [itC6] 1 0 0 [itC6, itH2, itH4] none).success = true ∧
    (handleCapture cD6 [itC6] 1 0 0 [itC6, itH2, itH4] none).newTableItems = [itH2, itH4] ∧
    getValidCaptures cD6 [itH2, itH4] ≠ [] := by
  refine ⟨by decide, by decide, by decide⟩

/-- Witness for C3 (amended) at a concrete successful capture. -/
theorem c3_single_capture_no_cascade_witness :
    (handleCapture cD6 [itC6] 1 0 0 [itC6, itH2, itH4] none).newTableItems =
      (([itC6, itH2, itH4] : List TableItem).filter (fun it => it.id ≠ "")).filter
        (fun it => ¬ (([itC6] : List TableItem).map TableItem.id).contains it.id) :=
  c3_single_capture_no_cascade cD6 [itC6] 1 0 0 [itC6, itH2, itH4] none (by decide)

/-- C7: a successful capture awards exactly one sweep point — to the acting
player — precisely when the table was nonempty before the action and is empty
afterwards, and no point otherwise. -/
theorem c7_sweep_scoring (playedCard : Card) (selectedItems : List TableItem)
    (currentPlayer p1 p2 : Nat) (tableItems : List TableItem) (lastCapturer : Option Nat)
    (hids : ∀ it ∈ tableItems, TableItem.id it ≠ "")
    (hs : (handleCapture playedCard selectedItems currentPlayer p1 p2 tableItems
      lastCapturer).success = true) :
    (handleCapture playedCard selectedItems currentPlayer p1 p2 tableItems
        lastCapturer).newP1Score =
      p1 + (if currentPlayer = 1 ∧
          (handleCapture playedCard selectedItems currentPlayer p1 p2 tableItems
            lastCapturer).newTableItems = [] ∧ tableItems ≠ [] then 1 else 0) ∧
    (handleCapture playedCard selectedItems currentPlayer p1 p2 tableItems
        lastCapturer).newP2Score =
      p2 + (if currentPlayer ≠ 1 ∧
          (handleCapture playedCard selectedItems currentPlayer p1 p2 tableItems
            lastCapturer).newTableItems = [] ∧ tableItems ≠ [] then 1 else 0) := by
  have hfilter : tableItems.filter (fun it => decide (TableItem.id it ≠ "")) = tableItems :=
    List.filter_eq_self.mpr (fun a ha => decide_eq_true (hids a ha))
  unfold handleCapture at hs ⊢
  split_ifs at hs ⊢ <;> simp_all <;>
    (rcases tableItems with _ | ⟨x, xs⟩ <;> simp_all)

/-- Witness for C7 at a concrete sweep (one-card table, fully captured). -/
theorem c7_sweep_scoring_witness :
    (handleCapture cD6 [itC6] 1 0 0 [itC6] none).newP1Score =
      0 + (if (1 : Nat) = 1 ∧
          (handleCapture cD6 [itC6] 1 0 0 [itC6] none).newTableItems = [] ∧
          ([itC6] : List TableItem) ≠ [] then 1 else 0) ∧
    (handleCapture cD6 [itC6] 1 0 0 [itC6] none).newP2Score =
      0 + (if (1 : Nat) ≠ 1 ∧
          (handleCapture cD6 [itC6] 1 0 0 [itC6] none).newTableItems = [] ∧
          ([itC6] : List TableItem) ≠ [] then 1 else 0) :=
  c7_sweep_scoring cD6 [itC6] 1 0 0 [itC6] none (by decide) (by decide)

/-- C1 (amended): `handleCapture` rejects any selection containing a Build or
Pair the acting player does not control — so Scenario C with an
opponent-controlled Build fails — while the same combined selection succeeds
as a multi-capture when the acting player controls the Build. -/
theorem c1_ownership_gated_capture :
    (∀ (playedCard : Card) (selectedItems : List TableItem) (currentPlayer p1 p2 : Nat)
      (tableItems : List TableItem) (lastCapturer : Option Nat),
      (∃ it ∈ selectedItems,
        (isBuildItem it = true ∨ isPairItem it = true) ∧ itemController it ≠ currentPlayer) →
      (handleCapture playedCard selectedItems currentPlayer p1 p2 tableItems
        lastCapturer).success = false) ∧
    (handleCapture cD6 [b6own, itC6] 1 0 0 [b6own, itC6] none).success = true ∧
    (handleCapture cD6 [b6own, itC6] 1 0 0 [b6own, itC6] none).newTableItems = [] := by
  refine ⟨?_, by decide, by decide⟩
  intro playedCard selectedItems currentPlayer p1 p2 tableItems lastCapturer hex
  unfold handleCapture
  split_ifs with h1 h2 h3
  all_goals try rfl
  all_goals
    rcases hex with ⟨it, hmem, hbp, hctl⟩
    exact absurd (List.any_eq_true.mpr ⟨it, hmem, decide_eq_true ⟨hbp, hctl⟩⟩) h3

/-- Counterexample for C1 (Scenario C as stated): the opponent-controlled
Build of 6 and the loose 6 are both generated capture options and the
combined selection passes multi-capture validation, yet `handleCapture`
rejects the action with the ownership message. -/
theorem c1_counterexample :
    [b6opp] ∈ getValidCaptures cD6 [b6opp, itC6] ∧
    [itC6] ∈ getValidCaptures cD6 [b6opp, itC6] ∧
    isValidMultiCaptureSelection cD6 [b6opp, itC6] [b6opp, itC6] = true ∧
    (handleCapture cD6 [b6opp, itC6] 1 0 0 [b6opp, itC6] none).success = false ∧
    (handleCapture cD6 [b6opp, itC6] 1 0 0 [b6opp, itC6] none).message =
      "Cannot capture Builds or Pairs you don’t control." := by
  refine ⟨by decide, by decide, by decide, by decide, by decide⟩

/-- Witness for C1 (amended): the ownership rejection applied at Scenario C. -/
theorem c1_ownership_gated_capture_witness :
    (handleCapture cD6 [b6opp, itC6] 1 0 0 [b6opp, itC6] none).success = false :=
  c1_ownership_gated_capture.1 cD6 [b6opp, itC6] 1 0 0 [b6opp, itC6] none
    ⟨b6opp, by decide, by decide⟩

/-- A successful multi-build increase (Case 1) returns the success record and
has passed the holding-card and duplicate-build guards. -/
theorem vbCase1_success (playedCard : Card) (selectedItems : List TableItem)
    (playerHand : List Card) (tableItems : List TableItem) (currentPlayer : Nat)
    (selectedCards : List TableItem) (targetMultiBuild : TableItem)
    (h : (vbCase1 playedCard selectedItems playerHand tableItems currentPlayer selectedCards
      targetMultiBuild).isValid = true) :
    vbCase1 playedCard selectedItems playerHand tableItems currentPlayer selectedCards
        targetMultiBuild =
      { isValid := true
        buildValue := buildValueOf targetMultiBuild
        isModification := true
        targetBuild := some targetMultiBuild
        summingItems := selectedCards
        cascadingItems := []
        isMultiBuildIncrease := true
        message := "Increased Multi-Build of " ++
          toString (buildValueOf targetMultiBuild) ++ "." } ∧
    playerHand.any (fun handCard =>
      handCard.suitRank ≠ playedCard.suitRank ∧
      getBuildValue handCard = buildValueOf targetMultiBuild) = true ∧
    ¬ tableItems.any (fun it =>
      isBuildItem it ∧ buildValueOf it = buildValueOf targetMultiBuild ∧
      itemController it = currentPlayer ∧ it.id ≠ targetMultiBuild.id) = true := by
  simp only [vbCase1] at h ⊢
  split_ifs at h ⊢ with h1 h2 h3 h4 h5
  exact ⟨rfl, h4, h5⟩

/-- A successful multi-build combination (Case 2) returns the success record
and has passed all its guards. -/
theorem vbCase2_success (playedCard : Card) (playerHand : List Card)
    (tableItems : List TableItem) (currentPlayer : Nat) (selectedBuilds : List TableItem)
    (selectedCards : List TableItem)
    (h : (vbCase2 playedCard playerHand tableItems currentPlayer selectedBuilds
      selectedCards).isValid = true) :
    vbCase2 playedCard playerHand tableItems currentPlayer selectedBuilds selectedCards =
      { isValid := true
        buildValue := (selectedBuilds.map buildValueOf).headD 0
        isMultiBuildCreation := true
        multiBuildBuilds :=
          selectedBuilds.map (fun b => BuildComponent.mk ((buildCards b).getD [])
            (buildValueOf b)) ++ [⟨[playedCard], (selectedBuilds.map buildValueOf).headD 0⟩]
        summingItems := []
        cascadingItems := []
        message := "Created Multi-Build of " ++
          toString ((selectedBuilds.map buildValueOf).headD 0) ++ "." } ∧
    selectedCards = [] ∧
    selectedBuilds.any itemIsCompound = false ∧
    (dedupKeepFirst (selectedBuilds.map buildValueOf)).length ≤ 1 ∧
    getBuildValue playedCard = (selectedBuilds.map buildValueOf).headD 0 ∧
    playerHand.any (fun handCard =>
      handCard.suitRank ≠ playedCard.suitRank ∧
      getBuildValue handCard = (selectedBuilds.map buildValueOf).headD 0) = true ∧
    ¬ tableItems.any (fun it =>
      isBuildItem it ∧ buildValueOf it = (selectedBuilds.map buildValueOf).headD 0 ∧
      itemController it = currentPlayer ∧
      ¬ selectedBuilds.any (fun b => b.id = it.id)) = true := by
  simp only [vbCase2] at h ⊢
  split_ifs at h ⊢ with h1 h2 h3 h4 h5 h6
  refine ⟨rfl, ?_, ?_, ?_, ?_, ?_, h6⟩
  · exact List.length_eq_zero.mp (by omega)
  · exact Bool.eq_false_iff.mpr (fun hc => h2 hc)
  · omega
  · exact not_not.mp h4
  · exact h5

/-- Every bitmask-selected subset is a sublist of the list. -/
theorem bitsSubset_sublist (i : Nat) (l : List α) : ∀ j : Nat, (bitsSubset i l j).Sublist l := by
  induction l with
  | nil => intro j; simp [bitsSubset]
  | cons x xs ih =>
    intro j
    unfold bitsSubset
    split_ifs
    · exact (ih (j + 1)).cons₂ x
    · exact (ih (j + 1)).cons x

/-- A result of the Case 3 scan is the success record for some target value
in 1..10 whose partition, holding-card and duplicate-build guards all passed. -/
theorem vbCase3_some (playedCard : Card) (selectedCards : List TableItem)
    (playerHand : List Card) (tableItems : List TableItem) (currentPlayer : Nat)
    (r : BuildValidation)
    (h : vbCase3 playedCard selectedCards playerHand tableItems currentPlayer = some r) :
    ∃ targetValue builds,
      1 ≤ targetValue ∧ targetValue ≤ 10 ∧
      findBuildPartitions playedCard (selectedCards.filterMap cardOfItem) targetValue =
        some builds ∧
      r = { isValid := true
            buildValue := targetValue
            isMultiBuildCreation := true
            multiBuildBuilds := builds
            summingItems := selectedCards
            cascadingItems := []
            message := "Created Multi-Build of " ++ toString targetValue ++ "." } ∧
      playerHand.any (fun handCard =>
        handCard.suitRank ≠ playedCard.suitRank ∧
        getBuildValue handCard = targetValue) = true ∧
      ¬ tableItems.any (fun it =>
        isBuildItem it ∧ buildValueOf it = targetValue ∧
        itemController it = currentPlayer) = true := by
  unfold vbCase3 at h
  obtain ⟨tv, htv, heq⟩ := List.exists_of_findSome?_eq_some h
  obtain ⟨i, hi, hveq⟩ := List.mem_range'.mp htv
  refine ⟨tv, ?_⟩
  cases hfp : findBuildPartitions playedCard (selectedCards.filterMap cardOfItem) tv with
  | none =>
    simp only [hfp] at heq
    simp at heq
  | some builds =>
    simp only [hfp] at heq
    split_ifs at heq with hhold hdup
    injection heq with heq2
    refine ⟨builds, by omega, by omega, rfl, heq2.symm, hhold, hdup⟩

/-- A result of the Case 4 scan is the success record for some summing subset
of the selection whose guards all passed. -/
theorem vbCase4Scan_some (playedCard : Card) (otherSelectedItems : List TableItem)
    (playerHand : List Card) (tableItems : List TableItem) (currentPlayer : Nat)
    (targetBuild : Option TableItem) (r : BuildValidation)
    (h : vbCase4Scan playedCard otherSelectedItems playerHand tableItems currentPlayer
      targetBuild = some r) :
    ∃ summing v,
      summing.Sublist otherSelectedItems ∧
      v = getBuildValue playedCard + (summing.map getItemValue).sum +
        targetBuild.elim 0 getItemValue ∧
      1 ≤ v ∧ v ≤ 10 ∧
      ((otherSelectedItems.filter
          (fun it => !((summing.map TableItem.id).contains it.id))).any
        (fun it => getItemValue it ≠ v)) = false ∧
      playerHand.any (fun handCard =>
        handCard.suitRank ≠ playedCard.suitRank ∧ getBuildValue handCard = v) = true ∧
      ¬ tableItems.any (fun it =>
        isBuildItem it ∧ buildValueOf it = v ∧ itemController it = currentPlayer ∧
        (targetBuild.elim true (fun tb => decide (it.id ≠ tb.id))) = true) = true ∧
      r = { isValid := true
            buildValue := v
            isModification := targetBuild.isSome
            targetBuild := targetBuild
            summingItems := summing
            cascadingItems := otherSelectedItems.filter
              (fun it => !((summing.map TableItem.id).contains it.id))
            message := "Build " ++ toString v ++ " is valid." } := by
  unfold vbCase4Scan at h
  obtain ⟨i, hi, heq⟩ := List.exists_of_findSome?_eq_some h
  simp only at heq
  split_ifs at heq with hb hrem hhold hdup
  injection heq with heq2
  refine ⟨bitsSubset i otherSelectedItems 0,
    getBuildValue playedCard + ((bitsSubset i otherSelectedItems 0).map getItemValue).sum +
      targetBuild.elim 0 getItemValue,
    bitsSubset_sublist i otherSelectedItems 0, rfl, by omega, by omega,
    Bool.eq_false_iff.mpr hrem, hhold, hdup, heq2.symm⟩

/-- A successful Case 4 equals the success record of its scan. -/
theorem vbCase4_success (playedCard : Card) (otherSelectedItems : List TableItem)
    (playerHand : List Card) (tableItems : List TableItem) (currentPlayer : Nat)
    (targetBuild : Option TableItem)
    (h : (vbCase4 playedCard otherSelectedItems playerHand tableItems currentPlayer
      targetBuild).isValid = true) :
    ∃ summing v,
      summing.Sublist otherSelectedItems ∧
      v = getBuildValue playedCard + (summing.map getItemValue).sum +
        targetBuild.elim 0 getItemValue ∧
      1 ≤ v ∧ v ≤ 10 ∧
      ((otherSelectedItems.filter
          (fun it => !((summing.map TableItem.id).contains it.id))).any
        (fun it => getItemValue it ≠ v)) = false ∧
      playerHand.any (fun handCard =>
        handCard.suitRank ≠ playedCard.suitRank ∧ getBuildValue handCard = v) = true ∧
      ¬ tableItems.any (fun it =>
        isBuildItem it ∧ buildValueOf it = v ∧ itemController it = currentPlayer ∧
        (targetBuild.elim true (fun tb => decide (it.id ≠ tb.id))) = true) = true ∧
      vbCase4 playedCard otherSelectedItems playerHand tableItems currentPlayer targetBuild =
        { isValid := true
          buildValue := v
          isModification := targetBuild.isSome
          targetBuild := targetBuild
          summingItems := summing
          cascadingItems := otherSelectedItems.filter
            (fun it => !((summing.map TableItem.id).contains it.id))
          message := "Build " ++ toString v ++ " is valid." } := by
  by_cases hface : (otherSelectedItems.any itemIsFace) = true
  · have heq : vbCase4 playedCard otherSelectedItems playerHand tableItems currentPlayer
        targetBuild = invalidBuild "Face cards cannot be used in builds." := by
      simp [vbCase4, hface]
    rw [heq] at h
    simp at h
  · cases hscan : vbCase4Scan playedCard otherSelectedItems playerHand tableItems
        currentPlayer targetBuild with
    | none =>
      simp only [vbCase4, hface, hscan] at h
      split_ifs at h
    | some r =>
      obtain ⟨summing, v, hsub, hv, h1, h10, hrem, hhold, hdup, hr⟩ :=
        vbCase4Scan_some playedCard otherSelectedItems playerHand tableItems currentPlayer
          targetBuild r hscan
      have heq : vbCase4 playedCard otherSelectedItems playerHand tableItems currentPlayer
          targetBuild = r := by
        simp [vbCase4, hface, hscan]
      exact ⟨summing, v, hsub, hv, h1, h10, hrem, hhold, hdup, heq.trans hr⟩

/-- A successful `validateBuild` went through exactly one of the four cases,
with the corresponding selected-build shape. -/
theorem validateBuild_success_cases (playedCard : Card) (selectedItems : List TableItem)
    (playerHand : List Card) (tableItems : List TableItem) (currentPlayer : Nat)
    (h : (validateBuild playedCard selectedItems playerHand tableItems
      currentPlayer).isValid = true) :
    (∃ b, selectedItems.filter isBuildItem = [b] ∧ itemIsCompound b = true ∧
      validateBuild playedCard selectedItems playerHand tableItems currentPlayer =
        vbCase1 playedCard selectedItems playerHand tableItems currentPlayer
          (selectedItems.filter isCardItem) b) ∨
    (∃ b, selectedItems.filter isBuildItem = [b] ∧ itemIsCompound b = false ∧
      validateBuild playedCard selectedItems playerHand tableItems currentPlayer =
        vbCase4 playedCard (selectedItems.filter isCardItem) playerHand tableItems
          currentPlayer (some b)) ∨
    (2 ≤ (selectedItems.filter isBuildItem).length ∧
      validateBuild playedCard selectedItems playerHand tableItems currentPlayer =
        vbCase2 playedCard playerHand tableItems currentPlayer
          (selectedItems.filter isBuildItem) (selectedItems.filter isCardItem)) ∨
    (selectedItems.filter isBuildItem = [] ∧
      ∃ r, vbCase3 playedCard (selectedItems.filter isCardItem) playerHand tableItems
        currentPlayer = some r ∧
      validateBuild playedCard selectedItems playerHand tableItems currentPlayer = r) ∨
    (selectedItems.filter isBuildItem = [] ∧
      validateBuild playedCard selectedItems playerHand tableItems currentPlayer =
        vbCase4 playedCard (selectedItems.filter isCardItem) playerHand tableItems
          currentPlayer none) := by
  by_cases h0 : selectedItems = []
  · simp [validateBuild, h0] at h
  by_cases h1 : ∃ x ∈ selectedItems, TableItem.id x = ""
  · simp [validateBuild, h0, h1] at h
  by_cases h2 : (isFaceCard playedCard) = true
  · simp [validateBuild, h0, h1, h2] at h
  by_cases h3 : ∃ x ∈ selectedItems, isPairItem x = true
  · simp [validateBuild, h0, h1, h2, h3] at h
  rcases hsb : selectedItems.filter isBuildItem with _ | ⟨b, _ | ⟨b2, rest⟩⟩
  · by_cases hc : (selectedItems.filter isCardItem).length > 0
    · cases hc3 : vbCase3 playedCard (selectedItems.filter isCardItem) playerHand tableItems
          currentPlayer with
      | some r =>
        refine Or.inr (Or.inr (Or.inr (Or.inl ⟨rfl, r, rfl, ?_⟩)))
        simp [validateBuild, h0, h1, h2, h3, hsb, hc, hc3]
      | none =>
        refine Or.inr (Or.inr (Or.inr (Or.inr ⟨rfl, ?_⟩)))
        simp [validateBuild, h0, h1, h2, h3, hsb, hc, hc3]
    · refine Or.inr (Or.inr (Or.inr (Or.inr ⟨rfl, ?_⟩)))
      simp [validateBuild, h0, h1, h2, h3, hsb, hc]
  · by_cases hcomp : itemIsCompound b = true
    · refine Or.inl ⟨b, rfl, hcomp, ?_⟩
      simp [validateBuild, h0, h1, h2, h3, hsb, hcomp]
    · refine Or.inr (Or.inl ⟨b, rfl, Bool.eq_false_iff.mpr hcomp, ?_⟩)
      simp [validateBuild, h0, h1, h2, h3, hsb, hcomp]
  · refine Or.inr (Or.inr (Or.inl ⟨by simp, ?_⟩))
    simp [validateBuild, h0, h1, h2, h3, hsb]

/-- C5: every successful `validateBuild` (creation, extension, or multi-build
increase) found a holding card: the hand contains, apart from the played card
itself, a card whose build value equals the resulting build value. -/
theorem c5_holding_card (playedCard : Card) (selectedItems : List TableItem)
    (playerHand : List Card) (tableItems : List TableItem) (currentPlayer : Nat)
    (h : (validateBuild playedCard selectedItems playerHand tableItems
      currentPlayer).isValid = true) :
    ∃ handCard ∈ playerHand, handCard.suitRank ≠ playedCard.suitRank ∧
      getBuildValue handCard =
        (validateBuild playedCard selectedItems playerHand tableItems
          currentPlayer).buildValue := by
  rcases validateBuild_success_cases playedCard selectedItems playerHand tableItems
      currentPlayer h with
    ⟨b, hsb, hcomp, heq⟩ | ⟨b, hsb, hcomp, heq⟩ | ⟨hlen, heq⟩ | ⟨hnil, r, hc3, heq⟩ |
    ⟨hnil, heq⟩
  · rw [heq] at h ⊢
    obtain ⟨hrec, hhold, _⟩ := vbCase1_success playedCard selectedItems playerHand tableItems
      currentPlayer (selectedItems.filter isCardItem) b h
    rw [hrec]
    obtain ⟨hc, hmem, hp⟩ := List.any_eq_true.mp hhold
    have hp2 := of_decide_eq_true hp
    exact ⟨hc, hmem, hp2.1, hp2.2⟩
  · rw [heq] at h ⊢
    obtain ⟨summing, v, _, _, _, _, _, hhold, _, hrec⟩ := vbCase4_success playedCard
      (selectedItems.filter isCardItem) playerHand tableItems currentPlayer (some b) h
    rw [hrec]
    obtain ⟨hc, hmem, hp⟩ := List.any_eq_true.mp hhold
    have hp2 := of_decide_eq_true hp
    exact ⟨hc, hmem, hp2.1, hp2.2⟩
  · rw [heq] at h ⊢
    obtain ⟨hrec, _, _, _, _, hhold, _⟩ := vbCase2_success playedCard playerHand tableItems
      currentPlayer (selectedItems.filter isBuildItem) (selectedItems.filter isCardItem) h
    rw [hrec]
    obtain ⟨hc, hmem, hp⟩ := List.any_eq_true.mp hhold
    have hp2 := of_decide_eq_true hp
    exact ⟨hc, hmem, hp2.1, hp2.2⟩
  · rw [heq] at h ⊢
    obtain ⟨tv, builds, _, _, _, hr, hhold, _⟩ := vbCase3_some playedCard
      (selectedItems.filter isCardItem) playerHand tableItems currentPlayer r hc3
    rw [hr]
    obtain ⟨hc, hmem, hp⟩ := List.any_eq_true.mp hhold
    have hp2 := of_decide_eq_true hp
    exact ⟨hc, hmem, hp2.1, hp2.2⟩
  · rw [heq] at h ⊢
    obtain ⟨summing, v, _, _, _, _, _, hhold, _, hrec⟩ := vbCase4_success playedCard
      (selectedItems.filter isCardItem) playerHand tableItems currentPlayer none h
    rw [hrec]
    obtain ⟨hc, hmem, hp⟩ := List.any_eq_true.mp hhold
    have hp2 := of_decide_eq_true hp
    exact ⟨hc, hmem, hp2.1, hp2.2⟩

/-- Witness for C5 at a concrete valid build (Ace played onto a build of 5
with a 6 held in hand). -/
theorem c5_holding_card_witness :
    ∃ handCard ∈ [cS6], handCard.suitRank ≠ cHA.suitRank ∧
      getBuildValue handCard = (validateBuild cHA [b0] [cS6] [b0] 1).buildValue :=
  c5_holding_card cHA [b0] [cS6] [b0] 1 (by decide)

/-- C6: a successful `validateBuild` guarantees that every build on the table
of the resulting value controlled by the acting player is part of the
selection (the build being modified or combined); the player never ends up
with a second, distinct build of the same value. -/
theorem c6_no_duplicate_build (playedCard : Card) (selectedItems : List TableItem)
    (playerHand : List Card) (tableItems : List TableItem) (currentPlayer : Nat)
    (h : (validateBuild playedCard selectedItems playerHand tableItems
      currentPlayer).isValid = true) :
    ∀ it ∈ tableItems, isBuildItem it = true →
      buildValueOf it = (validateBuild playedCard selectedItems playerHand tableItems
        currentPlayer).buildValue →
      itemController it = currentPlayer →
      (selectedItems.map TableItem.id).contains it.id = true := by
  intro it hmem hb hv hctl
  rcases validateBuild_success_cases playedCard selectedItems playerHand tableItems
      currentPlayer h with
    ⟨b, hsb, hcomp, heq⟩ | ⟨b, hsb, hcomp, heq⟩ | ⟨hlen, heq⟩ | ⟨hnil, r, hc3, heq⟩ |
    ⟨hnil, heq⟩
  · rw [heq] at h hv
    obtain ⟨hrec, _, hdup⟩ := vbCase1_success playedCard selectedItems playerHand tableItems
      currentPlayer (selectedItems.filter isCardItem) b h
    rw [hrec] at hv
    have hbmem : b ∈ selectedItems := List.mem_of_mem_filter (hsb ▸ List.mem_singleton_self b)
    by_cases hid : it.id = b.id
    · exact List.elem_eq_true_of_mem (List.mem_map.mpr ⟨b, hbmem, hid.symm⟩)
    · exact absurd (List.any_eq_true.mpr ⟨it, hmem, decide_eq_true ⟨hb, hv, hctl, hid⟩⟩) hdup
  · rw [heq] at h hv
    obtain ⟨summing, v, _, _, _, _, _, _, hdup, hrec⟩ := vbCase4_success playedCard
      (selectedItems.filter isCardItem) playerHand tableItems currentPlayer (some b) h
    rw [hrec] at hv
    have hbmem : b ∈ selectedItems := List.mem_of_mem_filter (hsb ▸ List.mem_singleton_self b)
    by_cases hid : it.id = b.id
    · exact List.elem_eq_true_of_mem (List.mem_map.mpr ⟨b, hbmem, hid.symm⟩)
    · exact absurd (List.any_eq_true.mpr ⟨it, hmem,
        decide_eq_true ⟨hb, hv, hctl, decide_eq_true hid⟩⟩) hdup
  · rw [heq] at h hv
    obtain ⟨hrec, _, _, _, _, _, hdup⟩ := vbCase2_success playedCard playerHand tableItems
      currentPlayer (selectedItems.filter isBuildItem) (selectedItems.filter isCardItem) h
    rw [hrec] at hv
    by_cases hex : ((selectedItems.filter isBuildItem).any (fun bb => bb.id = it.id)) = true
    · obtain ⟨bb, hbbmem, hbbid⟩ := List.any_eq_true.mp hex
      have hbbsel : bb ∈ selectedItems := List.mem_of_mem_filter hbbmem
      exact List.elem_eq_true_of_mem
        (List.mem_map.mpr ⟨bb, hbbsel, of_decide_eq_true hbbid⟩)
    · exact absurd (List.any_eq_true.mpr ⟨it, hmem, decide_eq_true ⟨hb, hv, hctl, hex⟩⟩) hdup
  · rw [heq] at h hv
    obtain ⟨tv, builds, _, _, _, hr, _, hdup⟩ := vbCase3_some playedCard
      (selectedItems.filter isCardItem) playerHand tableItems currentPlayer r hc3
    rw [hr] at hv
    exact absurd (List.any_eq_true.mpr ⟨it, hmem, decide_eq_true ⟨hb, hv, hctl⟩⟩) hdup
  · rw [heq] at h hv
    obtain ⟨summing, v, _, _, _, _, _, _, hdup, hrec⟩ := vbCase4_success playedCard
      (selectedItems.filter isCardItem) playerHand tableItems currentPlayer none h
    rw [hrec] at hv
    exact absurd (List.any_eq_true.mpr ⟨it, hmem, decide_eq_true ⟨hb, hv, hctl, rfl⟩⟩) hdup

/-- Witness for C6 at a concrete valid multi-build increase: the increased
build itself is the player's only build of the resulting value and is part of
the selection. -/
theorem c6_no_duplicate_build_witness :
    (([mb6] : List TableItem).map TableItem.id).contains (TableItem.id mb6) = true :=
  c6_no_duplicate_build cD6 [mb6] [cH6] [mb6] 1 (by decide) mb6 (by decide) (by decide)
    (by decide) (by decide)

/-- If the de-duplication of a list is empty, every element was already seen. -/
theorem dedupAux_eq_nil {α : Type} [DecidableEq α] (seen : List α) (l : List α)
    (h : dedupAux seen l = []) : ∀ a ∈ l, seen.contains a = true := by
  induction l with
  | nil => simp
  | cons x xs ih =>
    intro a ha
    unfold dedupAux at h
    split_ifs at h with hc
    rcases List.mem_cons.mp ha with rfl | hxs
    · exact hc
    · exact ih h a hxs

/-- A list whose de-duplication has at most one entry is constant. -/
theorem dedup_le_one {α : Type} [DecidableEq α] (l : List α) (d : α)
    (h : (dedupKeepFirst l).length ≤ 1) : ∀ a ∈ l, a = l.headD d := by
  cases l with
  | nil => simp
  | cons x xs =>
    intro a ha
    have hx : dedupKeepFirst (x :: xs) = x :: dedupAux [x] xs := by
      simp [dedupKeepFirst, dedupAux]
    rw [hx] at h
    have hnil : dedupAux [x] xs = [] := by
      have := List.length_eq_zero.mpr (rfl : ([] : List α) = [])
      cases hd : dedupAux [x] xs with
      | nil => rfl
      | cons y ys => rw [hd] at h; simp at h
    rcases List.mem_cons.mp ha with rfl | hxs
    · rfl
    · have := dedupAux_eq_nil [x] xs hnil a hxs
      simpa using this

/-- C2 (amended): if the selection contains more than one existing Build,
`validateBuild` can succeed, but only as a Multi-Build combination: no cards
are selected, the played card's build value equals the resulting value, and
every selected Build is simple (non-compound) with exactly that value.
`validateBuild` never checks the controller of a selected Build: a single
Build controlled by the opponent may validly be modified. -/
theorem c2_multi_build_selection :
    (∀ (playedCard : Card) (selectedItems : List TableItem) (playerHand : List Card)
      (tableItems : List TableItem) (currentPlayer : Nat),
      (validateBuild playedCard selectedItems playerHand tableItems
        currentPlayer).isValid = true →
      2 ≤ (selectedItems.filter isBuildItem).length →
      (validateBuild playedCard selectedItems playerHand tableItems
        currentPlayer).isMultiBuildCreation = true ∧
      selectedItems.filter isCardItem = [] ∧
      getBuildValue playedCard =
        (validateBuild playedCard selectedItems playerHand tableItems
          currentPlayer).buildValue ∧
      (∀ b ∈ selectedItems.filter isBuildItem, itemIsCompound b = false ∧
        buildValueOf b =
          (validateBuild playedCard selectedItems playerHand tableItems
            currentPlayer).buildValue)) ∧
    (validateBuild cHA [b0] [cS6] [b0] 1).isValid = true ∧ itemController b0 ≠ 1 := by
  refine ⟨?_, by decide, by decide⟩
  intro playedCard selectedItems playerHand tableItems currentPlayer h hlen
  rcases validateBuild_success_cases playedCard selectedItems playerHand tableItems
      currentPlayer h with
    ⟨b, hsb, hcomp, heq⟩ | ⟨b, hsb, hcomp, heq⟩ | ⟨hlen2, heq⟩ | ⟨hnil, r, hc3, heq⟩ |
    ⟨hnil, heq⟩
  · rw [hsb] at hlen; simp at hlen
  · rw [hsb] at hlen; simp at hlen
  · rw [heq] at h ⊢
    obtain ⟨hrec, hcards, hcomp, hdedup, hpv, _, _⟩ := vbCase2_success playedCard playerHand
      tableItems currentPlayer (selectedItems.filter isBuildItem)
      (selectedItems.filter isCardItem) h
    rw [hrec]
    refine ⟨rfl, hcards, hpv, ?_⟩
    intro b hbmem
    constructor
    · rcases hcb : itemIsCompound b with _ | _
      · rfl
      · exact absurd (List.any_eq_true.mpr ⟨b, hbmem, hcb⟩) (by rw [hcomp]; simp)
    · have hvmem : buildValueOf b ∈ (selectedItems.filter isBuildItem).map buildValueOf :=
        List.mem_map.mpr ⟨b, hbmem, rfl⟩
      exact dedup_le_one _ 0 hdedup _ hvmem
  · rw [hnil] at hlen; simp at hlen
  · rw [hnil] at hlen; simp at hlen

/-- Counterexample for C2: combining two selected Builds of 6 with a played 6
validates (as a Multi-Build), and modifying a single Build controlled by the
opponent also validates — both conjuncts of the claim fail. -/
theorem c2_counterexample :
    (([bA, bB] : List TableItem).filter isBuildItem).length = 2 ∧
    (validateBuild cD6 [bA, bB] [cH6] [bA, bB] 1).isValid = true ∧
    (validateBuild cHA [b0] [cS6] [b0] 1).isValid = true ∧
    itemController b0 ≠ 1 := by
  refine ⟨by decide, by decide, by decide, by decide⟩

/-- Witness for C2 (amended) at the concrete two-build Multi-Build creation. -/
theorem c2_multi_build_selection_witness :
    (validateBuild cD6 [bA, bB] [cH6] [bA, bB] 1).isMultiBuildCreation = true ∧
    ([bA, bB] : List TableItem).filter isCardItem = [] ∧
    getBuildValue cD6 = (validateBuild cD6 [bA, bB] [cH6] [bA, bB] 1).buildValue ∧
    (∀ b ∈ ([bA, bB] : List TableItem).filter isBuildItem, itemIsCompound b = false ∧
      buildValueOf b = (validateBuild cD6 [bA, bB] [cH6] [bA, bB] 1).buildValue) :=
  c2_multi_build_selection.1 cD6 [bA, bB] [cH6] [bA, bB] 1 (by decide) (by decide)

/-- For card items, collecting contributed cards is projecting the cards. -/
theorem flatMap_cards (l : List TableItem) (h : ∀ it ∈ l, isCardItem it = true) :
    l.flatMap itemContributedCards = l.filterMap cardOfItem := by
  induction l with
  | nil => rfl
  | cons x xs ih =>
    cases x with
    | card i c =>
      simp only [List.flatMap_cons, List.filterMap_cons, itemContributedCards, cardOfItem]
      rw [ih (fun it hit => h it (List.mem_cons_of_mem _ hit))]
      rfl
    | build i v cs bs ctl ic => exact absurd (h _ (List.mem_cons_self _ _)) (by simp [isCardItem])
    | pair i r cs ctl => exact absurd (h _ (List.mem_cons_self _ _)) (by simp [isCardItem])

/-- For card items, the build values of the projected cards sum to the item
values. -/
theorem sum_buildValue_cards (l : List TableItem) (h : ∀ it ∈ l, isCardItem it = true) :
    ((l.filterMap cardOfItem).map getBuildValue).sum = (l.map getItemValue).sum := by
  induction l with
  | nil => rfl
  | cons x xs ih =>
    cases x with
    | card i c =>
      simp only [List.filterMap_cons, cardOfItem, List.map_cons, List.sum_cons]
      rw [← ih (fun it hit => h it (List.mem_cons_of_mem _ hit))]
      simp [getItemValue]
    | build i v cs bs ctl ic => exact absurd (h _ (List.mem_cons_self _ _)) (by simp [isCardItem])
    | pair i r cs ctl => exact absurd (h _ (List.mem_cons_self _ _)) (by simp [isCardItem])

/-- The de-duplication fold leaves a list of distinct, nonempty suit-ranks
untouched. -/
theorem dedupBySuitRank_go (l : List Card) :
    ∀ (acc : List Card) (seen : List String),
    (∀ c ∈ l, c.suitRank ≠ "") → ((l.map Card.suitRank).Nodup) →
    (∀ c ∈ l, c.suitRank ∉ seen) →
    (l.foldl
      (fun acc c =>
        if c.suitRank ≠ "" ∧ ¬ acc.2.contains c.suitRank then
          (acc.1 ++ [c], acc.2 ++ [c.suitRank])
        else acc)
      (acc, seen)).1 = acc ++ l := by
  induction l with
  | nil => intro acc seen _ _ _; simp
  | cons c cs ih =>
    intro acc seen h1 h2 h3
    simp only [List.map_cons, List.nodup_cons] at h2
    have hc1 : c.suitRank ≠ "" := h1 c (List.mem_cons_self _ _)
    have hc3 : c.suitRank ∉ seen := h3 c (List.mem_cons_self _ _)
    simp only [List.foldl_cons]
    rw [if_pos ⟨hc1, by simpa using hc3⟩]
    rw [ih (acc ++ [c]) (seen ++ [c.suitRank])
      (fun x hx => h1 x (List.mem_cons_of_mem _ hx))
      h2.2
      ?_]
    · simp
    · intro x hx
      have hne : x.suitRank ≠ c.suitRank := by
        intro he
        exact h2.1 (he ▸ List.mem_map.mpr ⟨x, hx, rfl⟩)
      simp only [List.mem_append, List.mem_singleton]
      exact fun hor => hor.elim (h3 x (List.mem_cons_of_mem _ hx)) hne

/-- De-duplication by suit-rank is the identity on a list of cards with
distinct, nonempty suit-ranks. -/
theorem dedupBySuitRank_eq_self (l : List Card) (h1 : ∀ c ∈ l, c.suitRank ≠ "")
    (h2 : (l.map Card.suitRank).Nodup) : dedupBySuitRank l = l := by
  unfold dedupBySuitRank
  rw [dedupBySuitRank_go l [] [] h1 h2 (fun c _ => List.not_mem_nil _)]
  rfl

/-- C4 (amended): for a plain single-build creation (no modification, no
multi-build, no cascading items) over physically distinct cards, the Build
that `handleBuild` appends to the table has its value in 1..10 and equal to
the sum of its cards' build values. -/
theorem c4_single_build_value (playedCard : Card) (selectedItems : List TableItem)
    (playerHand : List Card) (tableItems : List TableItem) (currentPlayer : Nat)
    (freshId : String)
    (hvalid : (validateBuild playedCard selectedItems playerHand tableItems
      currentPlayer).isValid = true)
    (hnc : (validateBuild playedCard selectedItems playerHand tableItems
      currentPlayer).isMultiBuildCreation = false)
    (hni : (validateBuild playedCard selectedItems playerHand tableItems
      currentPlayer).isMultiBuildIncrease = false)
    (hnm : (validateBuild playedCard selectedItems playerHand tableItems
      currentPlayer).isModification = false)
    (hcas : (validateBuild playedCard selectedItems playerHand tableItems
      currentPlayer).cascadingItems = [])
    (hsr : ∀ c ∈ playedCard :: selectedItems.filterMap cardOfItem, c.suitRank ≠ "")
    (hnd : ((playedCard :: selectedItems.filterMap cardOfItem).map Card.suitRank).Nodup) :
    (handleBuild playedCard selectedItems currentPlayer tableItems playerHand
      freshId).success = true ∧
    ∃ cs, (handleBuild playedCard selectedItems currentPlayer tableItems playerHand
        freshId).newTableItems.getLast? =
      some (TableItem.build freshId
        (validateBuild playedCard selectedItems playerHand tableItems
          currentPlayer).buildValue (some cs) none currentPlayer false) ∧
      1 ≤ (validateBuild playedCard selectedItems playerHand tableItems
        currentPlayer).buildValue ∧
      (validateBuild playedCard selectedItems playerHand tableItems
        currentPlayer).buildValue ≤ 10 ∧
      (cs.map getBuildValue).sum =
        (validateBuild playedCard selectedItems playerHand tableItems
          currentPlayer).buildValue := by
  rcases validateBuild_success_cases playedCard selectedItems playerHand tableItems
      currentPlayer hvalid with
    ⟨b, hsb, hcomp, heq⟩ | ⟨b, hsb, hcomp, heq⟩ | ⟨hlen2, heq⟩ | ⟨hnil, r, hc3, heq⟩ |
    ⟨hnil, heq⟩
  · rw [heq] at hvalid hni
    obtain ⟨hrec, _, _⟩ := vbCase1_success playedCard selectedItems playerHand tableItems
      currentPlayer (selectedItems.filter isCardItem) b hvalid
    rw [hrec] at hni
    simp at hni
  · rw [heq] at hvalid hnm
    obtain ⟨summing, v, _, _, _, _, _, _, _, hrec⟩ := vbCase4_success playedCard
      (selectedItems.filter isCardItem) playerHand tableItems currentPlayer (some b) hvalid
    rw [hrec] at hnm
    simp at hnm
  · rw [heq] at hvalid hnc
    obtain ⟨hrec, _, _, _, _, _, _⟩ := vbCase2_success playedCard playerHand tableItems
      currentPlayer (selectedItems.filter isBuildItem) (selectedItems.filter isCardItem)
      hvalid
    rw [hrec] at hnc
    simp at hnc
  · rw [heq] at hvalid hnc
    obtain ⟨tv, builds, _, _, _, hr, _, _⟩ := vbCase3_some playedCard
      (selectedItems.filter isCardItem) playerHand tableItems currentPlayer r hc3
    rw [hr] at hnc
    simp at hnc
  · rw [heq] at hvalid
    obtain ⟨summing, v, hsub, hv, h1v, h10, hrem, hhold, hdup, hrec⟩ := vbCase4_success
      playedCard (selectedItems.filter isCardItem) playerHand tableItems currentPlayer
      none hvalid
    have hval_eq : validateBuild playedCard selectedItems playerHand tableItems
        currentPlayer =
      { isValid := true
        buildValue := v
        isModification := (none : Option TableItem).isSome
        targetBuild := none
        summingItems := summing
        cascadingItems := (selectedItems.filter isCardItem).filter
          (fun it => !((summing.map TableItem.id).contains it.id))
        message := "Build " ++ toString v ++ " is valid." } := heq.trans hrec
    have hcas2 : (selectedItems.filter isCardItem).filter
        (fun it => !((summing.map TableItem.id).contains it.id)) = [] := by
      rw [hval_eq] at hcas
      simpa using hcas
    have hsc : ∀ it ∈ summing, isCardItem it = true := fun it hit =>
      (List.mem_filter.mp ((List.Sublist.subset hsub) hit)).2
    have hchain : (summing.filterMap cardOfItem).Sublist
        (selectedItems.filterMap cardOfItem) :=
      (hsub.filterMap _).trans ((List.filter_sublist _).filterMap _)
    have hcons : (playedCard :: summing.filterMap cardOfItem).Sublist
        (playedCard :: selectedItems.filterMap cardOfItem) := hchain.cons₂ _
    have hsum : ((playedCard :: summing.filterMap cardOfItem).map getBuildValue).sum = v := by
      simp only [List.map_cons, List.sum_cons]
      rw [sum_buildValue_cards summing hsc]
      rw [hv]
      simp
    refine ⟨?_, playedCard :: summing.filterMap cardOfItem, ?_, ?_, ?_, ?_⟩
    · simp [handleBuild, hval_eq]
    · simp only [handleBuild, hval_eq]
      rw [hcas2, flatMap_cards summing hsc]
      simp [List.getLast?_concat]
      rw [dedupBySuitRank_eq_self _ (fun c hc => hsr c (hcons.subset hc))
        (hnd.sublist (hcons.map _))]
    · rw [hval_eq]; exact h1v
    · rw [hval_eq]; exact h10
    · rw [hval_eq]; exact hsum

/-- Counterexample for C4: a successful `handleBuild` (Ace played onto the
build of 5 with a cascading loose 6) leaves a Build on the table whose value
is 6 but whose cards' build values sum to 12. -/
theorem c4_counterexample :
    (handleBuild cHA [b0, itD6x] 1 [b0, itD6x] [cS6] "build-0").success = true ∧
    (handleBuild cHA [b0, itD6x] 1 [b0, itD6x] [cS6] "build-0").newTableItems =
      [TableItem.build "b0" 6 (some [cHA, cD6, cC2, cC3]) none 1 false] ∧
    ([cHA, cD6, cC2, cC3].map getBuildValue).sum ≠ 6 := by
  refine ⟨by decide, by decide, by decide⟩

/-- Witness for C4 (amended): playing a 2 onto a loose 3 while holding a 5
creates a simple build of 5 whose cards sum to 5. -/
theorem c4_single_build_value_witness :
    (handleBuild cC2 [itC3] 1 [itC3] [cH5] "build-0").success = true ∧
    ∃ cs, (handleBuild cC2 [itC3] 1 [itC3] [cH5] "build-0").newTableItems.getLast? =
      some (TableItem.build "build-0"
        (validateBuild cC2 [itC3] [cH5] [itC3] 1).buildValue (some cs) none 1 false) ∧
      1 ≤ (validateBuild cC2 [itC3] [cH5] [itC3] 1).buildValue ∧
      (validateBuild cC2 [itC3] [cH5] [itC3] 1).buildValue ≤ 10 ∧
      (cs.map getBuildValue).sum = (validateBuild cC2 [itC3] [cH5] [itC3] 1).buildValue :=
  c4_single_build_value cC2 [itC3] [cH5] [itC3] 1 "build-0" (by decide) (by decide)
    (by decide) (by decide) (by decide) (by decide) (by decide)

/-- Case 1 always carries a nonempty message. -/
theorem vbCase1_message_ne (playedCard : Card) (selectedItems : List TableItem)
    (playerHand : List Card) (tableItems : List TableItem) (currentPlayer : Nat)
    (selectedCards : List TableItem) (targetMultiBuild : TableItem) :
    (vbCase1 playedCard selectedItems playerHand tableItems currentPlayer selectedCards
      targetMultiBuild).message ≠ "" := by
  simp only [vbCase1]
  split_ifs
  all_goals repeat apply append_ne_empty_left
  all_goals decide

/-- Case 2 always carries a nonempty message. -/
theorem vbCase2_message_ne (playedCard : Card) (playerHand : List Card)
    (tableItems : List TableItem) (currentPlayer : Nat) (selectedBuilds : List TableItem)
    (selectedCards : List TableItem) :
    (vbCase2 playedCard playerHand tableItems currentPlayer selectedBuilds
      selectedCards).message ≠ "" := by
  simp only [vbCase2]
  split_ifs
  all_goals repeat apply append_ne_empty_left
  all_goals decide

/-- A failing Case 4 carries a nonempty message. -/
theorem vbCase4_invalid_message (playedCard : Card) (otherSelectedItems : List TableItem)
    (playerHand : List Card) (tableItems : List TableItem) (currentPlayer : Nat)
    (targetBuild : Option TableItem)
    (h : (vbCase4 playedCard otherSelectedItems playerHand tableItems currentPlayer
      targetBuild).isValid = false) :
    (vbCase4 playedCard otherSelectedItems playerHand tableItems currentPlayer
      targetBuild).message ≠ "" := by
  by_cases hface : (otherSelectedItems.any itemIsFace) = true
  · have heq : vbCase4 playedCard otherSelectedItems playerHand tableItems currentPlayer
        targetBuild = invalidBuild "Face cards cannot be used in builds." := by
      simp [vbCase4, hface]
    rw [heq]
    decide
  · cases hscan : vbCase4Scan playedCard otherSelectedItems playerHand tableItems
        currentPlayer targetBuild with
    | some r =>
      obtain ⟨summing, v, _, _, _, _, _, _, _, hr⟩ := vbCase4Scan_some playedCard
        otherSelectedItems playerHand tableItems currentPlayer targetBuild r hscan
      have heq : vbCase4 playedCard otherSelectedItems playerHand tableItems currentPlayer
          targetBuild = r := by simp [vbCase4, hface, hscan]
      rw [heq, hr] at h
      simp at h
    | none =>
      have heq := hscan
      simp only [vbCase4, hface, hscan]
      split_ifs
      all_goals repeat apply append_ne_empty_left
      all_goals decide

/-- A failing `validateBuild` carries a nonempty message. -/
theorem validateBuild_invalid_message (playedCard : Card) (selectedItems : List TableItem)
    (playerHand : List Card) (tableItems : List TableItem) (currentPlayer : Nat)
    (h : (validateBuild playedCard selectedItems playerHand tableItems
      currentPlayer).isValid = false) :
    (validateBuild playedCard selectedItems playerHand tableItems
      currentPlayer).message ≠ "" := by
  by_cases h0 : selectedItems = []
  · have heq : validateBuild playedCard selectedItems playerHand tableItems currentPlayer =
        invalidBuild "Select a card from hand and items from table." := by
      simp [validateBuild, h0]
    rw [heq]; decide
  by_cases h1 : ∃ x ∈ selectedItems, TableItem.id x = ""
  · have heq : validateBuild playedCard selectedItems playerHand tableItems currentPlayer =
        invalidBuild "Internal error: Invalid items selected." := by
      simp [validateBuild, h0, h1]
    rw [heq]; decide
  by_cases h2 : (isFaceCard playedCard) = true
  · have heq : validateBuild playedCard selectedItems playerHand tableItems currentPlayer =
        invalidBuild "Face cards cannot be used in builds." := by
      simp [validateBuild, h0, h1, h2]
    rw [heq]; decide
  by_cases h3 : ∃ x ∈ selectedItems, isPairItem x = true
  · have heq : validateBuild playedCard selectedItems playerHand tableItems currentPlayer =
        invalidBuild "Cannot select pairs for building." := by
      simp [validateBuild, h0, h1, h2, h3]
    rw [heq]; decide
  rcases hsb : selectedItems.filter isBuildItem with _ | ⟨b, _ | ⟨b2, rest⟩⟩
  · by_cases hc : (selectedItems.filter isCardItem).length > 0
    · cases hc3 : vbCase3 playedCard (selectedItems.filter isCardItem) playerHand tableItems
          currentPlayer with
      | some r =>
        obtain ⟨tv, builds, _, _, _, hr, _, _⟩ := vbCase3_some playedCard
          (selectedItems.filter isCardItem) playerHand tableItems currentPlayer r hc3
        have heq : validateBuild playedCard selectedItems playerHand tableItems
            currentPlayer = r := by
          simp [validateBuild, h0, h1, h2, h3, hsb, hc, hc3]
        rw [heq, hr] at h
        simp at h
      | none =>
        have heq : validateBuild playedCard selectedItems playerHand tableItems
            currentPlayer = vbCase4 playedCard (selectedItems.filter isCardItem) playerHand
              tableItems currentPlayer none := by
          simp [validateBuild, h0, h1, h2, h3, hsb, hc, hc3]
        rw [heq] at h ⊢
        exact vbCase4_invalid_message _ _ _ _ _ _ h
    · have heq : validateBuild playedCard selectedItems playerHand tableItems
          currentPlayer = vbCase4 playedCard (selectedItems.filter isCardItem) playerHand
            tableItems currentPlayer none := by
        simp [validateBuild, h0, h1, h2, h3, hsb, hc]
      rw [heq] at h ⊢
      exact vbCase4_invalid_message _ _ _ _ _ _ h
  · by_cases hcomp : itemIsCompound b = true
    · have heq : validateBuild playedCard selectedItems playerHand tableItems currentPlayer =
          vbCase1 playedCard selectedItems playerHand tableItems currentPlayer
            (selectedItems.filter isCardItem) b := by
        simp [validateBuild, h0, h1, h2, h3, hsb, hcomp]
      rw [heq]
      exact vbCase1_message_ne _ _ _ _ _ _ _
    · have heq : validateBuild playedCard selectedItems playerHand tableItems currentPlayer =
          vbCase4 playedCard (selectedItems.filter isCardItem) playerHand tableItems
            currentPlayer (some b) := by
        simp [validateBuild, h0, h1, h2, h3, hsb, hcomp]
      rw [heq] at h ⊢
      exact vbCase4_invalid_message _ _ _ _ _ _ h
  · have heq : validateBuild playedCard selectedItems playerHand tableItems currentPlayer =
        vbCase2 playedCard playerHand tableItems currentPlayer
          (selectedItems.filter isBuildItem) (selectedItems.filter isCardItem) := by
      simp [validateBuild, h0, h1, h2, h3, hsb]
    rw [heq]
    exact vbCase2_message_ne _ _ _ _ _ _

/-- `validatePair` always carries a nonempty message. -/
theorem validatePair_message_ne (playedCard : Card) (selectedItems : List TableItem)
    (playerHand : List Card) :
    (validatePair playedCard selectedItems playerHand).message ≠ "" := by
  unfold validatePair
  split_ifs
  · simp
  · simp
  · rcases selectedItems with _ | ⟨x, xs⟩
    · simp
    · rcases x with _ | _ | _ <;> rcases xs with _ | ⟨y, ys⟩ <;>
        (try split) <;> (try split_ifs) <;> simp_all

/-- C8: a failing `handleBuild`, `handlePair`, or `handleCapture` leaves the
table exactly as passed in, leaves the scores unchanged (capture), and
returns a nonempty message. -/
theorem c8_atomic_failure (playedCard : Card) (selectedItems : List TableItem)
    (currentPlayer : Nat) (tableItems : List TableItem) (playerHand : List Card)
    (freshId : String) (p1 p2 : Nat) (lastCapturer : Option Nat)
    (hsel : ∀ it ∈ selectedItems, TableItem.id it ≠ "") :
    ((handleBuild playedCard selectedItems currentPlayer tableItems playerHand
        freshId).success = false →
      (handleBuild playedCard selectedItems currentPlayer tableItems playerHand
        freshId).newTableItems = tableItems ∧
      (handleBuild playedCard selectedItems currentPlayer tableItems playerHand
        freshId).message ≠ "") ∧
    ((handlePair playedCard selectedItems currentPlayer tableItems playerHand
        freshId).success = false →
      (handlePair playedCard selectedItems currentPlayer tableItems playerHand
        freshId).newTableItems = tableItems ∧
      (handlePair playedCard selectedItems currentPlayer tableItems playerHand
        freshId).message ≠ "") ∧
    ((handleCapture playedCard selectedItems currentPlayer p1 p2 tableItems
        lastCapturer).success = false →
      (handleCapture playedCard selectedItems currentPlayer p1 p2 tableItems
        lastCapturer).newTableItems = tableItems ∧
      (handleCapture playedCard selectedItems currentPlayer p1 p2 tableItems
        lastCapturer).newP1Score = p1 ∧
      (handleCapture playedCard selectedItems currentPlayer p1 p2 tableItems
        lastCapturer).newP2Score = p2 ∧
      (handleCapture playedCard selectedItems currentPlayer p1 p2 tableItems
        lastCapturer).message ≠ "") := by
  have hall : (selectedItems.all fun it => it.id ≠ "") = true :=
    List.all_eq_true.mpr (fun x hx => decide_eq_true (hsel x hx))
  refine ⟨?_, ?_, ?_⟩
  · intro hfail
    by_cases hv : (validateBuild playedCard selectedItems playerHand tableItems
        currentPlayer).isValid = false
    · have heq : handleBuild playedCard selectedItems currentPlayer tableItems playerHand
          freshId = ⟨false, tableItems, (validateBuild playedCard selectedItems playerHand
            tableItems currentPlayer).message⟩ := by
        simp [handleBuild, hv]
      rw [heq]
      exact ⟨rfl, validateBuild_invalid_message _ _ _ _ _ hv⟩
    · have hvv : (validateBuild playedCard selectedItems playerHand tableItems
          currentPlayer).isValid = true := by
        rcases hb : (validateBuild playedCard selectedItems playerHand tableItems
            currentPlayer).isValid with _ | _
        · exact absurd hb hv
        · rfl
      exfalso
      rcases validateBuild_success_cases playedCard selectedItems playerHand tableItems
          currentPlayer hvv with
        ⟨b, hsb, hcomp, heq⟩ | ⟨b, hsb, hcomp, heq⟩ | ⟨hlen2, heq⟩ | ⟨hnil, r, hc3, heq⟩ |
        ⟨hnil, heq⟩
      · rw [heq] at hvv
        obtain ⟨hrec, _, _⟩ := vbCase1_success playedCard selectedItems playerHand tableItems
          currentPlayer (selectedItems.filter isCardItem) b hvv
        have : (handleBuild playedCard selectedItems currentPlayer tableItems playerHand
            freshId).success = true := by
          simp [handleBuild, heq.trans hrec]
        rw [this] at hfail
        simp at hfail
      · rw [heq] at hvv
        obtain ⟨summing, v, _, _, _, _, _, _, _, hrec⟩ := vbCase4_success playedCard
          (selectedItems.filter isCardItem) playerHand tableItems currentPlayer (some b) hvv
        have : (handleBuild playedCard selectedItems currentPlayer tableItems playerHand
            freshId).success = true := by
          simp [handleBuild, heq.trans hrec]
        rw [this] at hfail
        simp at hfail
      · rw [heq] at hvv
        obtain ⟨hrec, _, _, _, _, _, _⟩ := vbCase2_success playedCard playerHand tableItems
          currentPlayer (selectedItems.filter isBuildItem) (selectedItems.filter isCardItem)
          hvv
        have : (handleBuild playedCard selectedItems currentPlayer tableItems playerHand
            freshId).success = true := by
          simp [handleBuild, heq.trans hrec]
        rw [this] at hfail
        simp at hfail
      · obtain ⟨tv, builds, _, _, _, hr, _, _⟩ := vbCase3_some playedCard
          (selectedItems.filter isCardItem) playerHand tableItems currentPlayer r hc3
        have : (handleBuild playedCard selectedItems currentPlayer tableItems playerHand
            freshId).success = true := by
          simp [handleBuild, heq.trans hr]
        rw [this] at hfail
        simp at hfail
      · rw [heq] at hvv
        obtain ⟨summing, v, _, _, _, _, _, _, _, hrec⟩ := vbCase4_success playedCard
          (selectedItems.filter isCardItem) playerHand tableItems currentPlayer none hvv
        have : (handleBuild playedCard selectedItems currentPlayer tableItems playerHand
            freshId).success = true := by
          simp [handleBuild, heq.trans hrec]
        rw [this] at hfail
        simp at hfail
  · intro hfail
    have hex : ¬ ∃ x ∈ selectedItems, TableItem.id x = "" := by
      intro hcon
      rcases hcon with ⟨x, hx, he⟩
      exact hsel x hx he
    by_cases hpv : (validatePair playedCard selectedItems playerHand).isValid = false
    · have heq : handlePair playedCard selectedItems currentPlayer tableItems playerHand
          freshId = ⟨false, tableItems,
            (validatePair playedCard selectedItems playerHand).message⟩ := by
        simp [handlePair, hex, hpv]
      rw [heq]
      exact ⟨rfl, validatePair_message_ne _ _ _⟩
    · have hpv2 : (validatePair playedCard selectedItems playerHand).isValid = true := by
        rcases hb : (validatePair playedCard selectedItems playerHand).isValid with _ | _
        · exact absurd hb hpv
        · rfl
      simp only [handlePair] at hfail ⊢
      rw [if_neg (by simpa using hsel)] at hfail ⊢
      rw [if_neg (by simp [hpv2])] at hfail ⊢
      rcases selectedItems with _ | ⟨x, xs⟩
      · simp only [handlePairCreate] at hfail ⊢
        split_ifs at hfail ⊢ <;> simp_all
      · rcases x with _ | _ | _ <;> rcases xs with _ | ⟨y, ys⟩ <;>
          simp only [handlePairCreate] at hfail ⊢ <;>
          split_ifs at hfail ⊢ <;> simp_all
  · intro hfail
    unfold handleCapture at hfail ⊢
    split_ifs at hfail ⊢ <;> exact ⟨rfl, rfl, rfl, by simp⟩

/-- Witness for C8: a failing build (face card played) leaves the table
untouched and reports a message. -/
theorem c8_atomic_failure_witness :
    (handleBuild cHJ [itC3] 1 [itC3] [] "build-9").newTableItems = [itC3] ∧
    (handleBuild cHJ [itC3] 1 [itC3] [] "build-9").message ≠ "" :=
  (c8_atomic_failure cHJ [itC3] 1 [itC3] [] "build-9" 0 0 none (by decide)).1 (by decide)
